import Mathlib

/-!
Verification of the paypal-rs data-model and endpoint-descriptor layer.

The repository is a typed client binding for the PayPal REST API: serde-
annotated DTO structs and enums (orders, invoicing, tracking) plus endpoint
descriptors. This file shallowly embeds the wire types together with the
JSON encoding and decoding that the serde derive attributes of the source
determine (skip_serializing_none, rename_all = SCREAMING_SNAKE_CASE,
serde(default), serde(rename)), and proves or refutes the frozen claims
about round-tripping, null emission, enum token sets, builder finalization,
endpoint paths, unknown-field tolerance and money fidelity.
-/

/-- A JSON document. Object fields are an ordered association list, which is
how serde_json views a JSON object during struct deserialization. -/
inductive Json where
  | null : Json
  | bool (b : Bool) : Json
  | num (n : Int) : Json
  | str (s : String) : Json
  | arr (elems : List Json) : Json
  | obj (fields : List (String × Json)) : Json
deriving Repr

/-- Lookup of a field by key in a JSON object field list; serde reads the
first binding of a field name. -/
def Json.lookup (k : String) : List (String × Json) → Option Json
  | [] => none
  | (k₂, v) :: rest => if k₂ = k then some v else Json.lookup k rest

/-- True when the document is the literal null. -/
def Json.isNull : Json → Bool
  | .null => true
  | _ => false

mutual

/-- Executable size of a JSON document, used as fuel by the recursive
invoice decoders: strictly larger than the size of any sub-document. -/
def Json.size : Json → Nat
  | .null => 1
  | .bool _ => 1
  | .num _ => 1
  | .str _ => 1
  | .arr xs => 1 + Json.sizeElems xs
  | .obj fs => 1 + Json.sizeFields fs

def Json.sizeElems : List Json → Nat
  | [] => 0
  | j :: rest => 1 + Json.size j + Json.sizeElems rest

def Json.sizeFields : List (String × Json) → Nat
  | [] => 0
  | (_, j) :: rest => 1 + Json.size j + Json.sizeFields rest

end

/-- A required struct field: always serialized. -/
def jf (k : String) (v : Json) : List (String × Json) := [(k, v)]

/-- An optional struct field under skip_serializing_none: the key is omitted
entirely when the value is absent. -/
def jopt (k : String) (enc : α → Json) : Option α → List (String × Json)
  | none => []
  | some a => [(k, enc a)]

/-- Serialization of an Option field without skip_serializing_none: an
absent value is written as an explicit null. -/
def encNul (enc : α → Json) : Option α → Json
  | none => Json.null
  | some a => enc a

/-- An optional struct field without skip_serializing_none: the key is
always emitted, with null standing for an absent value. -/
def jnul (k : String) (enc : α → Json) (o : Option α) : List (String × Json) :=
  [(k, encNul enc o)]

/-- Decoding of a required field: the key must be present and well shaped. -/
def getReq (fs : List (String × Json)) (k : String) (dec : Json → Option α) : Option α :=
  match Json.lookup k fs with
  | some j => dec j
  | none => none

/-- serde semantics of an Option field: a missing key or a null both decode
to an absent value; any other document must decode with the inner decoder. -/
def decOptJson (dec : Json → Option α) : Option Json → Option (Option α)
  | none => some none
  | some .null => some none
  | some j => (dec j).map some

/-- Decoding of an Option struct field. -/
def getOpt (fs : List (String × Json)) (k : String) (dec : Json → Option α) :
    Option (Option α) :=
  decOptJson dec (Json.lookup k fs)

/-- Decoding of a field carrying a serde(default) attribute: a missing key
falls back to the default value. -/
def getDef (fs : List (String × Json)) (k : String) (dec : Json → Option α) (d : α) :
    Option α :=
  match Json.lookup k fs with
  | some j => dec j
  | none => some d

/-- Decoder for a JSON string. -/
def decStr : Json → Option String
  | .str s => some s
  | _ => none

/-- Decoder for a JSON boolean. -/
def decBool : Json → Option Bool
  | .bool b => some b
  | _ => none

/-- Decoder for a JSON integer number (serde i32). -/
def decNum : Json → Option Int
  | .num n => some n
  | _ => none

/-- Encoder for a serde_json Value field: the document itself. -/
def encValue (j : Json) : Json := j

/-- Decoder for a serde_json Value field: any document is accepted. -/
def decValue (j : Json) : Option Json := some j

/-- Encoder for a Vec field. -/
def encList (enc : α → Json) (l : List α) : Json := .arr (l.map enc)

/-- Element-wise decoding of an array body: every element must decode. -/
def decElems (dec : Json → Option α) : List Json → Option (List α)
  | [] => some []
  | j :: rest =>
    match dec j with
    | some a => (decElems dec rest).map (fun l => a :: l)
    | none => none

/-- Decoder for a Vec field: the document must be an array and every element
must decode. -/
def decList (dec : Json → Option α) : Json → Option (List α)
  | .arr xs => decElems dec xs
  | _ => none

/-- Rejecting an Option field value that is the literal null, the corner in
which serde collapses Some(Value::Null) to None for opaque ValueJson blobs. -/
def optJsonOk : Option Json → Bool
  | some .null => false
  | _ => true

/-!
Common wire types from src/data/common.rs. That module is not present under
src, so these are modelled from the spec: monetary value is a three-letter
ISO currency code from a closed set plus a decimal string value; HATEOAS
links are a server-supplied URL plus relation name; the shipment carrier is
a closed enum of named couriers or OTHER; enum tokens are
SCREAMING_SNAKE_CASE on the wire.
-/

/-- Modelled from the spec: the closed set of three-letter ISO-4217 currency
codes from data/common.rs (absent from src). The source references the USD
and EUR members; the Rust Default implementation is modelled as USD. -/
inductive Currency where
  | usd : Currency
  | eur : Currency
deriving DecidableEq, Repr, Inhabited

/-- Wire token of a currency code: the ISO code itself. -/
def Currency.token : Currency → String
  | .usd => "USD"
  | .eur => "EUR"

/-- Rust Default for Currency, modelled as USD. -/
def Currency.default : Currency := .usd

def encCurrency (c : Currency) : Json := .str c.token

def decCurrency : Json → Option Currency
  | .str s =>
    if s = "USD" then some .usd
    else if s = "EUR" then some .eur
    else none
  | _ => none

/-- Modelled from the spec: Money from data/common.rs (absent from src), a
currency code plus a decimal string value; the core never parses the value. -/
structure Money where
  currency_code : Currency
  value : String
deriving DecidableEq, Repr

def encMoney (m : Money) : Json :=
  .obj (jf "currency_code" (encCurrency m.currency_code) ++ jf "value" (.str m.value))

def decMoney : Json → Option Money
  | .obj fs => do
    let cc ← getReq fs "currency_code" decCurrency
    let v ← getReq fs "value" decStr
    pure ⟨cc, v⟩
  | _ => none

/-- Modelled from the spec: the phone type enum from data/common.rs (absent
from src), a closed enum with SCREAMING_SNAKE_CASE tokens. -/
inductive PhoneType where
  | fax | home | mobile | other | pager
deriving DecidableEq, Repr

def PhoneType.token : PhoneType → String
  | .fax => "FAX"
  | .home => "HOME"
  | .mobile => "MOBILE"
  | .other => "OTHER"
  | .pager => "PAGER"

def encPhoneType (p : PhoneType) : Json := .str p.token

def decPhoneType : Json → Option PhoneType
  | .str s =>
    if s = "FAX" then some .fax
    else if s = "HOME" then some .home
    else if s = "MOBILE" then some .mobile
    else if s = "OTHER" then some .other
    else if s = "PAGER" then some .pager
    else none
  | _ => none

/-- Modelled from the spec: the postal address from data/common.rs (absent
from src); snake_case optional line and area fields plus a required country
code, with absent optionals omitted. -/
structure Address where
  address_line_1 : Option String
  address_line_2 : Option String
  admin_area_2 : Option String
  admin_area_1 : Option String
  postal_code : Option String
  country_code : String
deriving DecidableEq, Repr

def encAddress (a : Address) : Json :=
  .obj (jopt "address_line_1" Json.str a.address_line_1
    ++ jopt "address_line_2" Json.str a.address_line_2
    ++ jopt "admin_area_2" Json.str a.admin_area_2
    ++ jopt "admin_area_1" Json.str a.admin_area_1
    ++ jopt "postal_code" Json.str a.postal_code
    ++ jf "country_code" (.str a.country_code))

def decAddress : Json → Option Address
  | .obj fs => do
    let a1 ← getOpt fs "address_line_1" decStr
    let a2 ← getOpt fs "address_line_2" decStr
    let aa2 ← getOpt fs "admin_area_2" decStr
    let aa1 ← getOpt fs "admin_area_1" decStr
    let pc ← getOpt fs "postal_code" decStr
    let cc ← getReq fs "country_code" decStr
    pure ⟨a1, a2, aa2, aa1, pc, cc⟩
  | _ => none

/-- Modelled from the spec: a HATEOAS link from data/common.rs (absent from
src), a server-supplied URL plus relation name guiding the client. -/
structure LinkDescription where
  href : String
  rel : String
  method : Option String
deriving DecidableEq, Repr

def encLinkDescription (l : LinkDescription) : Json :=
  .obj (jf "href" (.str l.href) ++ jf "rel" (.str l.rel)
    ++ jopt "method" Json.str l.method)

def decLinkDescription : Json → Option LinkDescription
  | .obj fs => do
    let h ← getReq fs "href" decStr
    let r ← getReq fs "rel" decStr
    let m ← getOpt fs "method" decStr
    pure ⟨h, r, m⟩
  | _ => none

/-- Modelled from the spec: the Universal Product Code of an item from
data/common.rs (absent from src): a UPC type token plus the code string. -/
structure ItemUpc where
  upc_type : String
  code : String
deriving DecidableEq, Repr

def encItemUpc (u : ItemUpc) : Json :=
  .obj (jf "type" (.str u.upc_type) ++ jf "code" (.str u.code))

def decItemUpc : Json → Option ItemUpc
  | .obj fs => do
    let t ← getReq fs "type" decStr
    let c ← getReq fs "code" decStr
    pure ⟨t, c⟩
  | _ => none

/-- Modelled from the spec: the shipment carrier from
data/shipment_carrier.rs (absent from src), a closed enum of named couriers
or OTHER with a free-text fallback in carrier_name_other. -/
inductive ShipmentCarrier where
  | ups | usps | fedex | dhl | other
deriving DecidableEq, Repr, Inhabited

def ShipmentCarrier.token : ShipmentCarrier → String
  | .ups => "UPS"
  | .usps => "USPS"
  | .fedex => "FEDEX"
  | .dhl => "DHL"
  | .other => "OTHER"

def encShipmentCarrier (c : ShipmentCarrier) : Json := .str c.token

def decShipmentCarrier : Json → Option ShipmentCarrier
  | .str s =>
    if s = "UPS" then some .ups
    else if s = "USPS" then some .usps
    else if s = "FEDEX" then some .fedex
    else if s = "DHL" then some .dhl
    else if s = "OTHER" then some .other
    else none
  | _ => none

/-- The external chrono DateTime in UTC, modelled by its ISO-8601
rendering: chrono serializes a DateTime as its RFC 3339 string and parsing
that string returns the same instant, so the value is carried here as that
string. -/
structure DateTimeUtc where
  iso8601 : String
deriving DecidableEq, Repr

def encDateTime (d : DateTimeUtc) : Json := .str d.iso8601

def decDateTime : Json → Option DateTimeUtc
  | .str s => some ⟨s⟩
  | _ => none

namespace Orders

/-- The intent to either capture payment immediately or authorize a payment
for an order after order creation (src/data/orders.rs, rename_all
SCREAMING_SNAKE_CASE). -/
inductive Intent where
  | capture : Intent
  | authorize : Intent
deriving DecidableEq, Repr, Inhabited

def Intent.token : Intent → String
  | .capture => "CAPTURE"
  | .authorize => "AUTHORIZE"

def encIntent (i : Intent) : Json := .str i.token

def decIntent : Json → Option Intent
  | .str s =>
    if s = "CAPTURE" then some .capture
    else if s = "AUTHORIZE" then some .authorize
    else none
  | _ => none

/-- The customer tax ID type. The source variant names BR_CPF and BR_CNPJ
pass through serde's rename_all SCREAMING_SNAKE_CASE conversion, which first
snake-cases the already underscored name, yielding the doubled-underscore
wire tokens spelled below. -/
inductive TaxIdType where
  | br_cpf : TaxIdType
  | br_cnpj : TaxIdType
deriving DecidableEq, Repr

def TaxIdType.token : TaxIdType → String
  | .br_cpf => "B_R__C_P_F"
  | .br_cnpj => "B_R__C_N_P_J"

def encTaxIdType (t : TaxIdType) : Json := .str t.token

def decTaxIdType : Json → Option TaxIdType
  | .str s =>
    if s = "B_R__C_P_F" then some .br_cpf
    else if s = "B_R__C_N_P_J" then some .br_cnpj
    else none
  | _ => none

/-- The funds that are held on behalf of the merchant. This enum carries no
serde rename_all attribute in the source, so serde serializes the plain
variant names Instant and Delayed. -/
inductive DisbursementMode where
  | instant : DisbursementMode
  | delayed : DisbursementMode
deriving DecidableEq, Repr, Inhabited

def DisbursementMode.token : DisbursementMode → String
  | .instant => "Instant"
  | .delayed => "Delayed"

def encDisbursementMode (d : DisbursementMode) : Json := .str d.token

def decDisbursementMode : Json → Option DisbursementMode
  | .str s =>
    if s = "Instant" then some .instant
    else if s = "Delayed" then some .delayed
    else none
  | _ => none

/-- The item category type (rename_all SCREAMING_SNAKE_CASE). -/
inductive ItemCategoryType where
  | digital_goods | physical_goods | donation
deriving DecidableEq, Repr

def ItemCategoryType.token : ItemCategoryType → String
  | .digital_goods => "DIGITAL_GOODS"
  | .physical_goods => "PHYSICAL_GOODS"
  | .donation => "DONATION"

def encItemCategoryType (c : ItemCategoryType) : Json := .str c.token

def decItemCategoryType : Json → Option ItemCategoryType
  | .str s =>
    if s = "DIGITAL_GOODS" then some .digital_goods
    else if s = "PHYSICAL_GOODS" then some .physical_goods
    else if s = "DONATION" then some .donation
    else none
  | _ => none

/-- Method of purchase fulfillment (rename_all SCREAMING_SNAKE_CASE). -/
inductive ShippingType where
  | shipping | pickup_in_person | pickup_in_store | pickup_from_person
deriving DecidableEq, Repr

def ShippingType.token : ShippingType → String
  | .shipping => "SHIPPING"
  | .pickup_in_person => "PICKUP_IN_PERSON"
  | .pickup_in_store => "PICKUP_IN_STORE"
  | .pickup_from_person => "PICKUP_FROM_PERSON"

def encShippingType (t : ShippingType) : Json := .str t.token

def decShippingType : Json → Option ShippingType
  | .str s =>
    if s = "SHIPPING" then some .shipping
    else if s = "PICKUP_IN_PERSON" then some .pickup_in_person
    else if s = "PICKUP_IN_STORE" then some .pickup_in_store
    else if s = "PICKUP_FROM_PERSON" then some .pickup_from_person
    else none
  | _ => none

/-- The status of the item shipment (rename_all SCREAMING_SNAKE_CASE). -/
inductive TrackerStatus where
  | cancelled | shipped
deriving DecidableEq, Repr

def TrackerStatus.token : TrackerStatus → String
  | .cancelled => "CANCELLED"
  | .shipped => "SHIPPED"

def encTrackerStatus (t : TrackerStatus) : Json := .str t.token

def decTrackerStatus : Json → Option TrackerStatus
  | .str s =>
    if s = "CANCELLED" then some .cancelled
    else if s = "SHIPPED" then some .shipped
    else none
  | _ => none

/-- The status of the payment authorization (rename_all
SCREAMING_SNAKE_CASE). -/
inductive AuthorizationStatus where
  | created | captured | denied | expired
  | partially_expired | partially_captured | voided | pending
deriving DecidableEq, Repr

def AuthorizationStatus.token : AuthorizationStatus → String
  | .created => "CREATED"
  | .captured => "CAPTURED"
  | .denied => "DENIED"
  | .expired => "EXPIRED"
  | .partially_expired => "PARTIALLY_EXPIRED"
  | .partially_captured => "PARTIALLY_CAPTURED"
  | .voided => "VOIDED"
  | .pending => "PENDING"

def encAuthorizationStatus (s : AuthorizationStatus) : Json := .str s.token

def decAuthorizationStatus : Json → Option AuthorizationStatus
  | .str s =>
    if s = "CREATED" then some .created
    else if s = "CAPTURED" then some .captured
    else if s = "DENIED" then some .denied
    else if s = "EXPIRED" then some .expired
    else if s = "PARTIALLY_EXPIRED" then some .partially_expired
    else if s = "PARTIALLY_CAPTURED" then some .partially_captured
    else if s = "VOIDED" then some .voided
    else if s = "PENDING" then some .pending
    else none
  | _ => none

/-- Seller protection status (rename_all SCREAMING_SNAKE_CASE). -/
inductive SellerProtectionStatus where
  | eligible | partially_eligible | not_eligible
deriving DecidableEq, Repr

def SellerProtectionStatus.token : SellerProtectionStatus → String
  | .eligible => "ELIGIBLE"
  | .partially_eligible => "PARTIALLY_ELIGIBLE"
  | .not_eligible => "NOT_ELIGIBLE"

def encSellerProtectionStatus (s : SellerProtectionStatus) : Json := .str s.token

def decSellerProtectionStatus : Json → Option SellerProtectionStatus
  | .str s =>
    if s = "ELIGIBLE" then some .eligible
    else if s = "PARTIALLY_ELIGIBLE" then some .partially_eligible
    else if s = "NOT_ELIGIBLE" then some .not_eligible
    else none
  | _ => none

/-- The capture status (rename_all SCREAMING_SNAKE_CASE). -/
inductive CaptureStatus where
  | completed | declined | partially_refunded | pending | refunded
deriving DecidableEq, Repr

def CaptureStatus.token : CaptureStatus → String
  | .completed => "COMPLETED"
  | .declined => "DECLINED"
  | .partially_refunded => "PARTIALLY_REFUNDED"
  | .pending => "PENDING"
  | .refunded => "REFUNDED"

def encCaptureStatus (s : CaptureStatus) : Json := .str s.token

def decCaptureStatus : Json → Option CaptureStatus
  | .str s =>
    if s = "COMPLETED" then some .completed
    else if s = "DECLINED" then some .declined
    else if s = "PARTIALLY_REFUNDED" then some .partially_refunded
    else if s = "PENDING" then some .pending
    else if s = "REFUNDED" then some .refunded
    else none
  | _ => none

/-- Capture status reason (rename_all SCREAMING_SNAKE_CASE). -/
inductive CaptureStatusDetailsReason where
  | buyer_complaint | chargeback | echeck | international_withdrawal | other
  | pending_review | receiving_preference_mandates_manual_action | refunded
  | transaction_approved_awaiting_funding | unilateral | verification_required
deriving DecidableEq, Repr

def CaptureStatusDetailsReason.token : CaptureStatusDetailsReason → String
  | .buyer_complaint => "BUYER_COMPLAINT"
  | .chargeback => "CHARGEBACK"
  | .echeck => "ECHECK"
  | .international_withdrawal => "INTERNATIONAL_WITHDRAWAL"
  | .other => "OTHER"
  | .pending_review => "PENDING_REVIEW"
  | .receiving_preference_mandates_manual_action =>
      "RECEIVING_PREFERENCE_MANDATES_MANUAL_ACTION"
  | .refunded => "REFUNDED"
  | .transaction_approved_awaiting_funding => "TRANSACTION_APPROVED_AWAITING_FUNDING"
  | .unilateral => "UNILATERAL"
  | .verification_required => "VERIFICATION_REQUIRED"

def encCaptureStatusDetailsReason (r : CaptureStatusDetailsReason) : Json := .str r.token

def decCaptureStatusDetailsReason : Json → Option CaptureStatusDetailsReason
  | .str s =>
    if s = "BUYER_COMPLAINT" then some .buyer_complaint
    else if s = "CHARGEBACK" then some .chargeback
    else if s = "ECHECK" then some .echeck
    else if s = "INTERNATIONAL_WITHDRAWAL" then some .international_withdrawal
    else if s = "OTHER" then some .other
    else if s = "PENDING_REVIEW" then some .pending_review
    else if s = "RECEIVING_PREFERENCE_MANDATES_MANUAL_ACTION" then
      some .receiving_preference_mandates_manual_action
    else if s = "REFUNDED" then some .refunded
    else if s = "TRANSACTION_APPROVED_AWAITING_FUNDING" then
      some .transaction_approved_awaiting_funding
    else if s = "UNILATERAL" then some .unilateral
    else if s = "VERIFICATION_REQUIRED" then some .verification_required
    else none
  | _ => none

/-- The status of the refund (rename_all SCREAMING_SNAKE_CASE). -/
inductive RefundStatus where
  | cancelled | pending | completed | failed
deriving DecidableEq, Repr

def RefundStatus.token : RefundStatus → String
  | .cancelled => "CANCELLED"
  | .pending => "PENDING"
  | .completed => "COMPLETED"
  | .failed => "FAILED"

def encRefundStatus (s : RefundStatus) : Json := .str s.token

def decRefundStatus : Json → Option RefundStatus
  | .str s =>
    if s = "CANCELLED" then some .cancelled
    else if s = "PENDING" then some .pending
    else if s = "COMPLETED" then some .completed
    else if s = "FAILED" then some .failed
    else none
  | _ => none

/-- Refund status reason (rename_all SCREAMING_SNAKE_CASE). -/
inductive RefundStatusDetailsReason where
  | echeck
deriving DecidableEq, Repr

def RefundStatusDetailsReason.token : RefundStatusDetailsReason → String
  | .echeck => "ECHECK"

def encRefundStatusDetailsReason (r : RefundStatusDetailsReason) : Json := .str r.token

def decRefundStatusDetailsReason : Json → Option RefundStatusDetailsReason
  | .str s => if s = "ECHECK" then some .echeck else none
  | _ => none

/-- The status of an order (rename_all SCREAMING_SNAKE_CASE). -/
inductive OrderStatus where
  | created | saved | approved | voided | completed
deriving DecidableEq, Repr

def OrderStatus.token : OrderStatus → String
  | .created => "CREATED"
  | .saved => "SAVED"
  | .approved => "APPROVED"
  | .voided => "VOIDED"
  | .completed => "COMPLETED"

def encOrderStatus (s : OrderStatus) : Json := .str s.token

def decOrderStatus : Json → Option OrderStatus
  | .str s =>
    if s = "CREATED" then some .created
    else if s = "SAVED" then some .saved
    else if s = "APPROVED" then some .approved
    else if s = "VOIDED" then some .voided
    else if s = "COMPLETED" then some .completed
    else none
  | _ => none

/-- Represents a payer name (both fields required, no skip_serializing_none
needed). -/
structure PayerName where
  given_name : String
  surname : String
deriving DecidableEq, Repr

def encPayerName (n : PayerName) : Json :=
  .obj (jf "given_name" (.str n.given_name) ++ jf "surname" (.str n.surname))

def decPayerName : Json → Option PayerName
  | .obj fs => do
    let g ← getReq fs "given_name" decStr
    let s ← getReq fs "surname" decStr
    pure ⟨g, s⟩
  | _ => none

/-- The phone number in E.164 format. The source derive carries no
skip_serializing_none attribute, so an absent country_code is serialized as
an explicit null. -/
structure PhoneNumber where
  country_code : Option String
  national_number : String
deriving DecidableEq, Repr

def encPhoneNumber (p : PhoneNumber) : Json :=
  .obj (jnul "country_code" Json.str p.country_code
    ++ jf "national_number" (.str p.national_number))

def decPhoneNumber : Json → Option PhoneNumber
  | .obj fs => do
    let cc ← getOpt fs "country_code" decStr
    let nn ← getReq fs "national_number" decStr
    pure ⟨cc, nn⟩
  | _ => none

/-- The phone number of the customer (skip_serializing_none). -/
structure Phone where
  phone_type : Option PhoneType
  phone_number : PhoneNumber
deriving DecidableEq, Repr

def encPhone (p : Phone) : Json :=
  .obj (jopt "phone_type" encPhoneType p.phone_type
    ++ jf "phone_number" (encPhoneNumber p.phone_number))

def decPhone : Json → Option Phone
  | .obj fs => do
    let t ← getOpt fs "phone_type" decPhoneType
    let n ← getReq fs "phone_number" decPhoneNumber
    pure ⟨t, n⟩
  | _ => none

/-- The tax information of the payer (both fields required). -/
structure TaxInfo where
  tax_id : String
  tax_id_type : TaxIdType
deriving DecidableEq, Repr

def encTaxInfo (t : TaxInfo) : Json :=
  .obj (jf "tax_id" (.str t.tax_id) ++ jf "tax_id_type" (encTaxIdType t.tax_id_type))

def decTaxInfo : Json → Option TaxInfo
  | .obj fs => do
    let i ← getReq fs "tax_id" decStr
    let t ← getReq fs "tax_id_type" decTaxIdType
    pure ⟨i, t⟩
  | _ => none

/-- The customer who approves and pays for the order (skip_serializing_none,
every field optional). -/
structure Payer where
  name : Option PayerName
  email_address : Option String
  payer_id : Option String
  phone : Option Phone
  birth_date : Option String
  tax_info : Option TaxInfo
  address : Option Address
deriving DecidableEq, Repr

def encPayer (p : Payer) : Json :=
  .obj (jopt "name" encPayerName p.name
    ++ jopt "email_address" Json.str p.email_address
    ++ jopt "payer_id" Json.str p.payer_id
    ++ jopt "phone" encPhone p.phone
    ++ jopt "birth_date" Json.str p.birth_date
    ++ jopt "tax_info" encTaxInfo p.tax_info
    ++ jopt "address" encAddress p.address)

def decPayer : Json → Option Payer
  | .obj fs => do
    let n ← getOpt fs "name" decPayerName
    let e ← getOpt fs "email_address" decStr
    let pid ← getOpt fs "payer_id" decStr
    let ph ← getOpt fs "phone" decPhone
    let b ← getOpt fs "birth_date" decStr
    let t ← getOpt fs "tax_info" decTaxInfo
    let a ← getOpt fs "address" decAddress
    pure ⟨n, e, pid, ph, b, t, a⟩
  | _ => none

/-- Breakdown of a purchase-unit amount (skip_serializing_none, every field
an optional Money). -/
structure Breakdown where
  item_total : Option Money
  shipping : Option Money
  handling : Option Money
  tax_total : Option Money
  insurance : Option Money
  shipping_discount : Option Money
  discount : Option Money
deriving DecidableEq, Repr

def encBreakdown (b : Breakdown) : Json :=
  .obj (jopt "item_total" encMoney b.item_total
    ++ jopt "shipping" encMoney b.shipping
    ++ jopt "handling" encMoney b.handling
    ++ jopt "tax_total" encMoney b.tax_total
    ++ jopt "insurance" encMoney b.insurance
    ++ jopt "shipping_discount" encMoney b.shipping_discount
    ++ jopt "discount" encMoney b.discount)

def decBreakdown : Json → Option Breakdown
  | .obj fs => do
    let it ← getOpt fs "item_total" decMoney
    let sh ← getOpt fs "shipping" decMoney
    let ha ← getOpt fs "handling" decMoney
    let tx ← getOpt fs "tax_total" decMoney
    let ins ← getOpt fs "insurance" decMoney
    let sd ← getOpt fs "shipping_discount" decMoney
    let d ← getOpt fs "discount" decMoney
    pure ⟨it, sh, ha, tx, ins, sd, d⟩
  | _ => none

/-- Represents an amount of money (skip_serializing_none): required currency
code and decimal string value, optional breakdown. -/
structure Amount where
  currency_code : Currency
  value : String
  breakdown : Option Breakdown
deriving DecidableEq, Repr

/-- Creates a new amount with the required values (Amount::new). -/
def Amount.new (currency : Currency) (value : String) : Amount :=
  ⟨currency, value, none⟩

/-- Creates a new amount with the EUR currency (Amount::eur). -/
def Amount.eur (value : String) : Amount := ⟨.eur, value, none⟩

/-- Creates a new amount with the USD currency (Amount::usd). -/
def Amount.usd (value : String) : Amount := ⟨.usd, value, none⟩

/-- Rust Default for Amount as derived in the source: default currency,
empty value string, absent breakdown. -/
def Amount.defaultValue : Amount := ⟨Currency.default, "", none⟩

def encAmount (a : Amount) : Json :=
  .obj (jf "currency_code" (encCurrency a.currency_code)
    ++ jf "value" (.str a.value)
    ++ jopt "breakdown" encBreakdown a.breakdown)

def decAmount : Json → Option Amount
  | .obj fs => do
    let cc ← getReq fs "currency_code" decCurrency
    let v ← getReq fs "value" decStr
    let b ← getOpt fs "breakdown" decBreakdown
    pure ⟨cc, v, b⟩
  | _ => none

/-- The merchant who receives payment (skip_serializing_none). -/
structure Payee where
  email_address : Option String
  merchant_id : Option String
deriving DecidableEq, Repr

def encPayee (p : Payee) : Json :=
  .obj (jopt "email_address" Json.str p.email_address
    ++ jopt "merchant_id" Json.str p.merchant_id)

def decPayee : Json → Option Payee
  | .obj fs => do
    let e ← getOpt fs "email_address" decStr
    let m ← getOpt fs "merchant_id" decStr
    pure ⟨e, m⟩
  | _ => none

/-- Fees, commissions, tips, or donations (skip_serializing_none). -/
structure PlatformFee where
  amount : Money
  payee : Option Payee
deriving DecidableEq, Repr

def encPlatformFee (f : PlatformFee) : Json :=
  .obj (jf "amount" (encMoney f.amount) ++ jopt "payee" encPayee f.payee)

def decPlatformFee : Json → Option PlatformFee
  | .obj fs => do
    let a ← getReq fs "amount" decMoney
    let p ← getOpt fs "payee" decPayee
    pure ⟨a, p⟩
  | _ => none

/-- Additional payment instructions (skip_serializing_none). -/
structure PaymentInstruction where
  platform_fees : Option (List PlatformFee)
  payee_pricing_tier_id : Option String
  payee_receivable_fx_rate_id : Option String
  disbursement_mode : Option DisbursementMode
deriving DecidableEq, Repr

def encPaymentInstruction (p : PaymentInstruction) : Json :=
  .obj (jopt "platform_fees" (encList encPlatformFee) p.platform_fees
    ++ jopt "payee_pricing_tier_id" Json.str p.payee_pricing_tier_id
    ++ jopt "payee_receivable_fx_rate_id" Json.str p.payee_receivable_fx_rate_id
    ++ jopt "disbursement_mode" encDisbursementMode p.disbursement_mode)

def decPaymentInstruction : Json → Option PaymentInstruction
  | .obj fs => do
    let pf ← getOpt fs "platform_fees" (decList decPlatformFee)
    let pt ← getOpt fs "payee_pricing_tier_id" decStr
    let fx ← getOpt fs "payee_receivable_fx_rate_id" decStr
    let dm ← getOpt fs "disbursement_mode" decDisbursementMode
    pure ⟨pf, pt, fx, dm⟩
  | _ => none

/-- The name of the person to whom to ship the items (full_name only). -/
structure ShippingDetailName where
  full_name : String
deriving DecidableEq, Repr

def encShippingDetailName (n : ShippingDetailName) : Json :=
  .obj (jf "full_name" (.str n.full_name))

def decShippingDetailName : Json → Option ShippingDetailName
  | .obj fs => do
    let f ← getReq fs "full_name" decStr
    pure ⟨f⟩
  | _ => none

/-- Item in the shipment, orders variant (skip_serializing_none). -/
structure ShipmentItem where
  name : Option String
  quantity : Option String
  sku : Option String
  url : Option String
  image_url : Option String
  upc : Option ItemUpc
deriving DecidableEq, Repr

def encShipmentItem (i : ShipmentItem) : Json :=
  .obj (jopt "name" Json.str i.name
    ++ jopt "quantity" Json.str i.quantity
    ++ jopt "sku" Json.str i.sku
    ++ jopt "url" Json.str i.url
    ++ jopt "image_url" Json.str i.image_url
    ++ jopt "upc" encItemUpc i.upc)

def decShipmentItem : Json → Option ShipmentItem
  | .obj fs => do
    let n ← getOpt fs "name" decStr
    let q ← getOpt fs "quantity" decStr
    let sk ← getOpt fs "sku" decStr
    let u ← getOpt fs "url" decStr
    let iu ← getOpt fs "image_url" decStr
    let up ← getOpt fs "upc" decItemUpc
    pure ⟨n, q, sk, u, iu, up⟩
  | _ => none

/-- Trackers for a transaction (skip_serializing_none). -/
structure TransactionTracker where
  id : Option String
  status : Option TrackerStatus
  items : Option (List ShipmentItem)
  links : Option (List LinkDescription)
  create_time : Option DateTimeUtc
  update_time : Option DateTimeUtc
deriving DecidableEq, Repr

def encTransactionTracker (t : TransactionTracker) : Json :=
  .obj (jopt "id" Json.str t.id
    ++ jopt "status" encTrackerStatus t.status
    ++ jopt "items" (encList encShipmentItem) t.items
    ++ jopt "links" (encList encLinkDescription) t.links
    ++ jopt "create_time" encDateTime t.create_time
    ++ jopt "update_time" encDateTime t.update_time)

def decTransactionTracker : Json → Option TransactionTracker
  | .obj fs => do
    let i ← getOpt fs "id" decStr
    let s ← getOpt fs "status" decTrackerStatus
    let its ← getOpt fs "items" (decList decShipmentItem)
    let ls ← getOpt fs "links" (decList decLinkDescription)
    let ct ← getOpt fs "create_time" decDateTime
    let ut ← getOpt fs "update_time" decDateTime
    pure ⟨i, s, its, ls, ct, ut⟩
  | _ => none

/-- Shipping options offered to the payer (skip_serializing_none). -/
structure ShippingOption where
  id : String
  label : String
  selected : Bool
  shipping_type : Option ShippingType
  amount : Option Money
deriving DecidableEq, Repr

def encShippingOption (s : ShippingOption) : Json :=
  .obj (jf "id" (.str s.id)
    ++ jf "label" (.str s.label)
    ++ jf "selected" (.bool s.selected)
    ++ jopt "shipping_type" encShippingType s.shipping_type
    ++ jopt "amount" encMoney s.amount)

def decShippingOption : Json → Option ShippingOption
  | .obj fs => do
    let i ← getReq fs "id" decStr
    let l ← getReq fs "label" decStr
    let se ← getReq fs "selected" decBool
    let st ← getOpt fs "shipping_type" decShippingType
    let a ← getOpt fs "amount" decMoney
    pure ⟨i, l, se, st, a⟩
  | _ => none

/-- The name and address of the person to whom to ship the items
(skip_serializing_none; the shipping_type field is renamed to type on the
wire by a serde rename attribute). -/
structure ShippingDetail where
  shipping_type : Option ShippingType
  options : Option (List ShippingOption)
  name : Option ShippingDetailName
  phone_number : Option PhoneNumber
  address : Option Address
  trackers : Option (List TransactionTracker)
deriving DecidableEq, Repr

def encShippingDetail (s : ShippingDetail) : Json :=
  .obj (jopt "type" encShippingType s.shipping_type
    ++ jopt "options" (encList encShippingOption) s.options
    ++ jopt "name" encShippingDetailName s.name
    ++ jopt "phone_number" encPhoneNumber s.phone_number
    ++ jopt "address" encAddress s.address
    ++ jopt "trackers" (encList encTransactionTracker) s.trackers)

def decShippingDetail : Json → Option ShippingDetail
  | .obj fs => do
    let t ← getOpt fs "type" decShippingType
    let o ← getOpt fs "options" (decList decShippingOption)
    let n ← getOpt fs "name" decShippingDetailName
    let p ← getOpt fs "phone_number" decPhoneNumber
    let a ← getOpt fs "address" decAddress
    let tr ← getOpt fs "trackers" (decList decTransactionTracker)
    pure ⟨t, o, n, p, a, tr⟩
  | _ => none

/-- Represents an item (skip_serializing_none). -/
structure Item where
  name : String
  quantity : String
  description : Option String
  sku : Option String
  url : Option String
  category : Option ItemCategoryType
  image_url : Option String
  unit_amount : Money
  tax : Option Money
  upc : Option ItemUpc
deriving DecidableEq, Repr

def encItem (i : Item) : Json :=
  .obj (jf "name" (.str i.name)
    ++ jf "quantity" (.str i.quantity)
    ++ jopt "description" Json.str i.description
    ++ jopt "sku" Json.str i.sku
    ++ jopt "url" Json.str i.url
    ++ jopt "category" encItemCategoryType i.category
    ++ jopt "image_url" Json.str i.image_url
    ++ jf "unit_amount" (encMoney i.unit_amount)
    ++ jopt "tax" encMoney i.tax
    ++ jopt "upc" encItemUpc i.upc)

def decItem : Json → Option Item
  | .obj fs => do
    let n ← getReq fs "name" decStr
    let q ← getReq fs "quantity" decStr
    let d ← getOpt fs "description" decStr
    let sk ← getOpt fs "sku" decStr
    let u ← getOpt fs "url" decStr
    let c ← getOpt fs "category" decItemCategoryType
    let iu ← getOpt fs "image_url" decStr
    let ua ← getReq fs "unit_amount" decMoney
    let tx ← getOpt fs "tax" decMoney
    let up ← getOpt fs "upc" decItemUpc
    pure ⟨n, q, d, sk, u, c, iu, ua, tx, up⟩
  | _ => none

/-- Seller protection data (no skip_serializing_none: absent optionals are
serialized as explicit nulls). -/
structure SellerProtection where
  status : Option SellerProtectionStatus
  dispute_categories : Option (List String)
deriving DecidableEq, Repr

def encSellerProtection (s : SellerProtection) : Json :=
  .obj (jnul "status" encSellerProtectionStatus s.status
    ++ jnul "dispute_categories" (encList Json.str) s.dispute_categories)

def decSellerProtection : Json → Option SellerProtection
  | .obj fs => do
    let st ← getOpt fs "status" decSellerProtectionStatus
    let dc ← getOpt fs "dispute_categories" (decList decStr)
    pure ⟨st, dc⟩
  | _ => none

/-- Reference values used by the card network to identify a transaction (no
skip_serializing_none). -/
structure NetworkTransactionReference where
  id : String
  date : Option String
  acquirer_reference_number : Option String
  network : Option String
deriving DecidableEq, Repr

def encNetworkTransactionReference (n : NetworkTransactionReference) : Json :=
  .obj (jf "id" (.str n.id)
    ++ jnul "date" Json.str n.date
    ++ jnul "acquirer_reference_number" Json.str n.acquirer_reference_number
    ++ jnul "network" Json.str n.network)

def decNetworkTransactionReference : Json → Option NetworkTransactionReference
  | .obj fs => do
    let i ← getReq fs "id" decStr
    let d ← getOpt fs "date" decStr
    let a ← getOpt fs "acquirer_reference_number" decStr
    let nw ← getOpt fs "network" decStr
    pure ⟨i, d, a, nw⟩
  | _ => none

/-- Modelled from the spec: the reason enum inside the authorization status
details from data/common.rs (absent from src); the spec describes a closed
status-detail reason enum explaining pending states, with
SCREAMING_SNAKE_CASE tokens. -/
inductive AuthorizationStatusDetailsReason where
  | pending
deriving DecidableEq, Repr

def AuthorizationStatusDetailsReason.token : AuthorizationStatusDetailsReason → String
  | .pending => "PENDING"

def encAuthorizationStatusDetailsReason (r : AuthorizationStatusDetailsReason) : Json :=
  .str r.token

def decAuthorizationStatusDetailsReason : Json → Option AuthorizationStatusDetailsReason
  | .str s => if s = "PENDING" then some .pending else none
  | _ => none

/-- Modelled from the spec: the details of the authorized order pending
status, from data/common.rs (absent from src): a record holding the
status-detail reason. -/
structure AuthorizationStatusDetails where
  reason : AuthorizationStatusDetailsReason
deriving DecidableEq, Repr

def encAuthorizationStatusDetails (d : AuthorizationStatusDetails) : Json :=
  .obj (jf "reason" (encAuthorizationStatusDetailsReason d.reason))

def decAuthorizationStatusDetails : Json → Option AuthorizationStatusDetails
  | .obj fs => do
    let r ← getReq fs "reason" decAuthorizationStatusDetailsReason
    pure ⟨r⟩
  | _ => none

/-- A payment authorization (no skip_serializing_none). The status and
status_details fields are required; everything else is optional. -/
structure AuthorizationWithData where
  status : AuthorizationStatus
  status_details : AuthorizationStatusDetails
  id : Option String
  invoice_id : Option String
  custom_id : Option String
  links : Option (List LinkDescription)
  amount : Option Money
  seller_protection : Option SellerProtection
  expiration_time : Option DateTimeUtc
  create_time : Option DateTimeUtc
  update_time : Option DateTimeUtc
  processor_response : Option Json
deriving Repr

def encAuthorizationWithData (a : AuthorizationWithData) : Json :=
  .obj (jf "status" (encAuthorizationStatus a.status)
    ++ jf "status_details" (encAuthorizationStatusDetails a.status_details)
    ++ jnul "id" Json.str a.id
    ++ jnul "invoice_id" Json.str a.invoice_id
    ++ jnul "custom_id" Json.str a.custom_id
    ++ jnul "links" (encList encLinkDescription) a.links
    ++ jnul "amount" encMoney a.amount
    ++ jnul "seller_protection" encSellerProtection a.seller_protection
    ++ jnul "expiration_time" encDateTime a.expiration_time
    ++ jnul "create_time" encDateTime a.create_time
    ++ jnul "update_time" encDateTime a.update_time
    ++ jnul "processor_response" encValue a.processor_response)

def decAuthorizationWithData : Json → Option AuthorizationWithData
  | .obj fs => do
    let st ← getReq fs "status" decAuthorizationStatus
    let sd ← getReq fs "status_details" decAuthorizationStatusDetails
    let i ← getOpt fs "id" decStr
    let inv ← getOpt fs "invoice_id" decStr
    let cu ← getOpt fs "custom_id" decStr
    let ls ← getOpt fs "links" (decList decLinkDescription)
    let am ← getOpt fs "amount" decMoney
    let sp ← getOpt fs "seller_protection" decSellerProtection
    let et ← getOpt fs "expiration_time" decDateTime
    let ct ← getOpt fs "create_time" decDateTime
    let ut ← getOpt fs "update_time" decDateTime
    let pr ← getOpt fs "processor_response" decValue
    pure ⟨st, sd, i, inv, cu, ls, am, sp, et, ct, ut, pr⟩
  | _ => none

/-- The opaque processor_response blob of an authorization is not the
literal null (the corner where serde collapses Some(Null) to None). -/
def AuthorizationWithData.opaqueOk (a : AuthorizationWithData) : Bool :=
  optJsonOk a.processor_response

/-- Details about the captured payment status. -/
structure CaptureStatusDetails where
  reason : CaptureStatusDetailsReason
deriving DecidableEq, Repr

def encCaptureStatusDetails (d : CaptureStatusDetails) : Json :=
  .obj (jf "reason" (encCaptureStatusDetailsReason d.reason))

def decCaptureStatusDetails : Json → Option CaptureStatusDetails
  | .obj fs => do
    let r ← getReq fs "reason" decCaptureStatusDetailsReason
    pure ⟨r⟩
  | _ => none

/-- Exchange rate detail (no skip_serializing_none). -/
structure ExchangeRateDetail where
  value : String
  source_currency : Option String
  target_currency : Option String
deriving DecidableEq, Repr

def encExchangeRateDetail (e : ExchangeRateDetail) : Json :=
  .obj (jf "value" (.str e.value)
    ++ jnul "source_currency" Json.str e.source_currency
    ++ jnul "target_currency" Json.str e.target_currency)

def decExchangeRateDetail : Json → Option ExchangeRateDetail
  | .obj fs => do
    let v ← getReq fs "value" decStr
    let sc ← getOpt fs "source_currency" decStr
    let tc ← getOpt fs "target_currency" decStr
    pure ⟨v, sc, tc⟩
  | _ => none

/-- Seller receivable breakdown (no skip_serializing_none). -/
structure SellerReceivableBreakdown where
  platform_fees : Option (List PlatformFee)
  gross_amount : Money
  paypal_fee : Money
  paypal_fee_in_receivable_currency : Option Money
  net_amount : Option Money
  receivable_amount : Option Money
  exchange_rate : Option ExchangeRateDetail
deriving DecidableEq, Repr

def encSellerReceivableBreakdown (s : SellerReceivableBreakdown) : Json :=
  .obj (jnul "platform_fees" (encList encPlatformFee) s.platform_fees
    ++ jf "gross_amount" (encMoney s.gross_amount)
    ++ jf "paypal_fee" (encMoney s.paypal_fee)
    ++ jnul "paypal_fee_in_receivable_currency" encMoney s.paypal_fee_in_receivable_currency
    ++ jnul "net_amount" encMoney s.net_amount
    ++ jnul "receivable_amount" encMoney s.receivable_amount
    ++ jnul "exchange_rate" encExchangeRateDetail s.exchange_rate)

def decSellerReceivableBreakdown : Json → Option SellerReceivableBreakdown
  | .obj fs => do
    let pf ← getOpt fs "platform_fees" (decList decPlatformFee)
    let ga ← getReq fs "gross_amount" decMoney
    let ppf ← getReq fs "paypal_fee" decMoney
    let pfr ← getOpt fs "paypal_fee_in_receivable_currency" decMoney
    let na ← getOpt fs "net_amount" decMoney
    let ra ← getOpt fs "receivable_amount" decMoney
    let er ← getOpt fs "exchange_rate" decExchangeRateDetail
    pure ⟨pf, ga, ppf, pfr, na, ra, er⟩
  | _ => none

/-- A captured payment (skip_serializing_none). -/
structure Capture where
  create_time : Option DateTimeUtc
  update_time : Option DateTimeUtc
  id : Option String
  invoice_id : Option String
  custom_id : Option String
  final_capture : Option Bool
  links : Option (List LinkDescription)
  amount : Money
  network_transaction_reference : Option NetworkTransactionReference
  seller_protection : Option SellerProtection
  status : CaptureStatus
  status_details : Option CaptureStatusDetails
  seller_receivable_breakdown : Option SellerReceivableBreakdown
  disbursement_mode : Option DisbursementMode
  processor_response : Option Json
deriving Repr

def encCapture (c : Capture) : Json :=
  .obj (jopt "create_time" encDateTime c.create_time
    ++ jopt "update_time" encDateTime c.update_time
    ++ jopt "id" Json.str c.id
    ++ jopt "invoice_id" Json.str c.invoice_id
    ++ jopt "custom_id" Json.str c.custom_id
    ++ jopt "final_capture" Json.bool c.final_capture
    ++ jopt "links" (encList encLinkDescription) c.links
    ++ jf "amount" (encMoney c.amount)
    ++ jopt "network_transaction_reference" encNetworkTransactionReference
        c.network_transaction_reference
    ++ jopt "seller_protection" encSellerProtection c.seller_protection
    ++ jf "status" (encCaptureStatus c.status)
    ++ jopt "status_details" encCaptureStatusDetails c.status_details
    ++ jopt "seller_receivable_breakdown" encSellerReceivableBreakdown
        c.seller_receivable_breakdown
    ++ jopt "disbursement_mode" encDisbursementMode c.disbursement_mode
    ++ jopt "processor_response" encValue c.processor_response)

def decCapture : Json → Option Capture
  | .obj fs => do
    let ct ← getOpt fs "create_time" decDateTime
    let ut ← getOpt fs "update_time" decDateTime
    let i ← getOpt fs "id" decStr
    let inv ← getOpt fs "invoice_id" decStr
    let cu ← getOpt fs "custom_id" decStr
    let fc ← getOpt fs "final_capture" decBool
    let ls ← getOpt fs "links" (decList decLinkDescription)
    let am ← getReq fs "amount" decMoney
    let ntr ← getOpt fs "network_transaction_reference" decNetworkTransactionReference
    let sp ← getOpt fs "seller_protection" decSellerProtection
    let st ← getReq fs "status" decCaptureStatus
    let sd ← getOpt fs "status_details" decCaptureStatusDetails
    let srb ← getOpt fs "seller_receivable_breakdown" decSellerReceivableBreakdown
    let dm ← getOpt fs "disbursement_mode" decDisbursementMode
    let pr ← getOpt fs "processor_response" decValue
    pure ⟨ct, ut, i, inv, cu, fc, ls, am, ntr, sp, st, sd, srb, dm, pr⟩
  | _ => none

/-- The opaque processor_response blob of a capture is not the literal
null. -/
def Capture.opaqueOk (c : Capture) : Bool :=
  optJsonOk c.processor_response

/-- Details about the status of the refund. -/
structure RefundStatusDetails where
  reason : RefundStatusDetailsReason
deriving DecidableEq, Repr

def encRefundStatusDetails (d : RefundStatusDetails) : Json :=
  .obj (jf "reason" (encRefundStatusDetailsReason d.reason))

def decRefundStatusDetails : Json → Option RefundStatusDetails
  | .obj fs => do
    let r ← getReq fs "reason" decRefundStatusDetailsReason
    pure ⟨r⟩
  | _ => none

/-- Exchange rate (all fields required). -/
structure ExchangeRate where
  source_currency : Currency
  target_currency : Currency
  value : String
deriving DecidableEq, Repr

def encExchangeRate (e : ExchangeRate) : Json :=
  .obj (jf "source_currency" (encCurrency e.source_currency)
    ++ jf "target_currency" (encCurrency e.target_currency)
    ++ jf "value" (.str e.value))

def decExchangeRate : Json → Option ExchangeRate
  | .obj fs => do
    let sc ← getReq fs "source_currency" decCurrency
    let tc ← getReq fs "target_currency" decCurrency
    let v ← getReq fs "value" decStr
    pure ⟨sc, tc, v⟩
  | _ => none

/-- The net breakdown of the refund (all fields required). -/
structure NetAmountBreakdown where
  converted_amount : Money
  exchange_rate : ExchangeRate
  payable_amount : Money
deriving DecidableEq, Repr

def encNetAmountBreakdown (n : NetAmountBreakdown) : Json :=
  .obj (jf "converted_amount" (encMoney n.converted_amount)
    ++ jf "exchange_rate" (encExchangeRate n.exchange_rate)
    ++ jf "payable_amount" (encMoney n.payable_amount))

def decNetAmountBreakdown : Json → Option NetAmountBreakdown
  | .obj fs => do
    let ca ← getReq fs "converted_amount" decMoney
    let er ← getReq fs "exchange_rate" decExchangeRate
    let pa ← getReq fs "payable_amount" decMoney
    pure ⟨ca, er, pa⟩
  | _ => none

/-- The breakdown of the refund (no skip_serializing_none). -/
structure SellerPayableBreakdown where
  platform_fees : Option (List PlatformFee)
  net_amount_breakdown : Option (List NetAmountBreakdown)
  gross_amount : Option Money
  paypal_fee : Option Money
  paypal_fee_in_receivable_currency : Option Money
  net_amount : Option Money
  net_amount_in_receivable_currency : Option Money
  total_refunded_amount : Money
deriving DecidableEq, Repr

def encSellerPayableBreakdown (s : SellerPayableBreakdown) : Json :=
  .obj (jnul "platform_fees" (encList encPlatformFee) s.platform_fees
    ++ jnul "net_amount_breakdown" (encList encNetAmountBreakdown) s.net_amount_breakdown
    ++ jnul "gross_amount" encMoney s.gross_amount
    ++ jnul "paypal_fee" encMoney s.paypal_fee
    ++ jnul "paypal_fee_in_receivable_currency" encMoney s.paypal_fee_in_receivable_currency
    ++ jnul "net_amount" encMoney s.net_amount
    ++ jnul "net_amount_in_receivable_currency" encMoney s.net_amount_in_receivable_currency
    ++ jf "total_refunded_amount" (encMoney s.total_refunded_amount))

def decSellerPayableBreakdown : Json → Option SellerPayableBreakdown
  | .obj fs => do
    let pf ← getOpt fs "platform_fees" (decList decPlatformFee)
    let nab ← getOpt fs "net_amount_breakdown" (decList decNetAmountBreakdown)
    let ga ← getOpt fs "gross_amount" decMoney
    let ppf ← getOpt fs "paypal_fee" decMoney
    let pfr ← getOpt fs "paypal_fee_in_receivable_currency" decMoney
    let na ← getOpt fs "net_amount" decMoney
    let nar ← getOpt fs "net_amount_in_receivable_currency" decMoney
    let tra ← getReq fs "total_refunded_amount" decMoney
    pure ⟨pf, nab, ga, ppf, pfr, na, nar, tra⟩
  | _ => none

/-- A refund (no skip_serializing_none: absent optionals serialize as
explicit nulls). -/
structure Refund where
  status : RefundStatus
  status_details : Option RefundStatusDetails
  id : String
  invoice_id : Option String
  customer_id : Option String
  acquirer_reference_number : Option String
  note_to_payer : Option String
  seller_payable_breakdown : SellerPayableBreakdown
  links : List LinkDescription
  amount : Money
  payer : Option Payer
  create_time : Option DateTimeUtc
  update_time : Option DateTimeUtc
deriving DecidableEq, Repr

def encRefund (r : Refund) : Json :=
  .obj (jf "status" (encRefundStatus r.status)
    ++ jnul "status_details" encRefundStatusDetails r.status_details
    ++ jf "id" (.str r.id)
    ++ jnul "invoice_id" Json.str r.invoice_id
    ++ jnul "customer_id" Json.str r.customer_id
    ++ jnul "acquirer_reference_number" Json.str r.acquirer_reference_number
    ++ jnul "note_to_payer" Json.str r.note_to_payer
    ++ jf "seller_payable_breakdown" (encSellerPayableBreakdown r.seller_payable_breakdown)
    ++ jf "links" (encList encLinkDescription r.links)
    ++ jf "amount" (encMoney r.amount)
    ++ jnul "payer" encPayer r.payer
    ++ jnul "create_time" encDateTime r.create_time
    ++ jnul "update_time" encDateTime r.update_time)

def decRefund : Json → Option Refund
  | .obj fs => do
    let st ← getReq fs "status" decRefundStatus
    let sd ← getOpt fs "status_details" decRefundStatusDetails
    let i ← getReq fs "id" decStr
    let inv ← getOpt fs "invoice_id" decStr
    let cu ← getOpt fs "customer_id" decStr
    let arn ← getOpt fs "acquirer_reference_number" decStr
    let ntp ← getOpt fs "note_to_payer" decStr
    let spb ← getReq fs "seller_payable_breakdown" decSellerPayableBreakdown
    let ls ← getReq fs "links" (decList decLinkDescription)
    let am ← getReq fs "amount" decMoney
    let py ← getOpt fs "payer" decPayer
    let ct ← getOpt fs "create_time" decDateTime
    let ut ← getOpt fs "update_time" decDateTime
    pure ⟨st, sd, i, inv, cu, arn, ntp, spb, ls, am, py, ct, ut⟩
  | _ => none

/-- The comprehensive history of payments for the purchase unit. All three
Vec fields carry serde(default): a missing key decodes as an empty list. -/
structure PaymentCollection where
  authorizations : List AuthorizationWithData
  captures : List Capture
  refunds : List Refund
deriving Repr

def encPaymentCollection (p : PaymentCollection) : Json :=
  .obj (jf "authorizations" (encList encAuthorizationWithData p.authorizations)
    ++ jf "captures" (encList encCapture p.captures)
    ++ jf "refunds" (encList encRefund p.refunds))

def decPaymentCollection : Json → Option PaymentCollection
  | .obj fs => do
    let au ← getDef fs "authorizations" (decList decAuthorizationWithData) []
    let ca ← getDef fs "captures" (decList decCapture) []
    let re ← getDef fs "refunds" (decList decRefund) []
    pure ⟨au, ca, re⟩
  | _ => none

/-- All opaque blobs in the payment history are non-null. -/
def PaymentCollection.opaqueOk (p : PaymentCollection) : Bool :=
  p.authorizations.all AuthorizationWithData.opaqueOk
    && p.captures.all Capture.opaqueOk

/-- The payment source used to fund the payment (skip_serializing_none);
every field is an intentionally opaque serde_json Value blob. -/
structure PaymentSourceResponse where
  card : Option Json
  bancontact : Option Json
  blik : Option Json
  eps : Option Json
  giropay : Option Json
  ideal : Option Json
  mybank : Option Json
  p24 : Option Json
  sofort : Option Json
  trustly : Option Json
  venmo : Option Json
  paypal : Option Json
  apple_pay : Option Json
  google_pay : Option Json
deriving Repr

def encPaymentSourceResponse (p : PaymentSourceResponse) : Json :=
  .obj (jopt "card" encValue p.card
    ++ jopt "bancontact" encValue p.bancontact
    ++ jopt "blik" encValue p.blik
    ++ jopt "eps" encValue p.eps
    ++ jopt "giropay" encValue p.giropay
    ++ jopt "ideal" encValue p.ideal
    ++ jopt "mybank" encValue p.mybank
    ++ jopt "p24" encValue p.p24
    ++ jopt "sofort" encValue p.sofort
    ++ jopt "trustly" encValue p.trustly
    ++ jopt "venmo" encValue p.venmo
    ++ jopt "paypal" encValue p.paypal
    ++ jopt "apple_pay" encValue p.apple_pay
    ++ jopt "google_pay" encValue p.google_pay)

def decPaymentSourceResponse : Json → Option PaymentSourceResponse
  | .obj fs => do
    let c ← getOpt fs "card" decValue
    let ba ← getOpt fs "bancontact" decValue
    let bl ← getOpt fs "blik" decValue
    let ep ← getOpt fs "eps" decValue
    let gi ← getOpt fs "giropay" decValue
    let idl ← getOpt fs "ideal" decValue
    let my ← getOpt fs "mybank" decValue
    let p24f ← getOpt fs "p24" decValue
    let so ← getOpt fs "sofort" decValue
    let tr ← getOpt fs "trustly" decValue
    let ve ← getOpt fs "venmo" decValue
    let pp ← getOpt fs "paypal" decValue
    let ap ← getOpt fs "apple_pay" decValue
    let gp ← getOpt fs "google_pay" decValue
    pure ⟨c, ba, bl, ep, gi, idl, my, p24f, so, tr, ve, pp, ap, gp⟩
  | _ => none

/-- All fourteen opaque funding blobs are non-null. -/
def PaymentSourceResponse.opaqueOk (p : PaymentSourceResponse) : Bool :=
  optJsonOk p.card && optJsonOk p.bancontact && optJsonOk p.blik && optJsonOk p.eps
    && optJsonOk p.giropay && optJsonOk p.ideal && optJsonOk p.mybank && optJsonOk p.p24
    && optJsonOk p.sofort && optJsonOk p.trustly && optJsonOk p.venmo && optJsonOk p.paypal
    && optJsonOk p.apple_pay && optJsonOk p.google_pay

/-- Represents either a full or partial order that the payer intends to
purchase from the payee (skip_serializing_none). -/
structure PurchaseUnit where
  reference_id : Option String
  description : Option String
  custom_id : Option String
  invoice_id : Option String
  id : Option String
  soft_descriptor : Option String
  items : Option (List Item)
  amount : Amount
  payee : Option Payee
  payment_instruction : Option PaymentInstruction
  shipping : Option ShippingDetail
  payments : Option PaymentCollection
deriving Repr

/-- Creates a new PurchaseUnit with the required properties
(PurchaseUnit::new): the given amount, everything else defaulted absent. -/
def PurchaseUnit.new (amount : Amount) : PurchaseUnit :=
  ⟨none, none, none, none, none, none, none, amount, none, none, none, none⟩

/-- Rust Default for PurchaseUnit as derived in the source. -/
def PurchaseUnit.defaultValue : PurchaseUnit :=
  ⟨none, none, none, none, none, none, none, Amount.defaultValue, none, none, none, none⟩

def encPurchaseUnit (u : PurchaseUnit) : Json :=
  .obj (jopt "reference_id" Json.str u.reference_id
    ++ jopt "description" Json.str u.description
    ++ jopt "custom_id" Json.str u.custom_id
    ++ jopt "invoice_id" Json.str u.invoice_id
    ++ jopt "id" Json.str u.id
    ++ jopt "soft_descriptor" Json.str u.soft_descriptor
    ++ jopt "items" (encList encItem) u.items
    ++ jf "amount" (encAmount u.amount)
    ++ jopt "payee" encPayee u.payee
    ++ jopt "payment_instruction" encPaymentInstruction u.payment_instruction
    ++ jopt "shipping" encShippingDetail u.shipping
    ++ jopt "payments" encPaymentCollection u.payments)

def decPurchaseUnit : Json → Option PurchaseUnit
  | .obj fs => do
    let rid ← getOpt fs "reference_id" decStr
    let de ← getOpt fs "description" decStr
    let cu ← getOpt fs "custom_id" decStr
    let inv ← getOpt fs "invoice_id" decStr
    let i ← getOpt fs "id" decStr
    let sd ← getOpt fs "soft_descriptor" decStr
    let its ← getOpt fs "items" (decList decItem)
    let am ← getReq fs "amount" decAmount
    let pe ← getOpt fs "payee" decPayee
    let pi ← getOpt fs "payment_instruction" decPaymentInstruction
    let sh ← getOpt fs "shipping" decShippingDetail
    let pa ← getOpt fs "payments" decPaymentCollection
    pure ⟨rid, de, cu, inv, i, sd, its, am, pe, pi, sh, pa⟩
  | _ => none

/-- All opaque blobs reachable from the purchase unit are non-null. -/
def PurchaseUnit.opaqueOk (u : PurchaseUnit) : Bool :=
  match u.payments with
  | none => true
  | some pc => pc.opaqueOk

/-- An order represents a payment between two or more parties
(skip_serializing_none). -/
structure Order where
  create_time : Option DateTimeUtc
  update_time : Option DateTimeUtc
  id : String
  purchase_units : Option (List PurchaseUnit)
  links : List LinkDescription
  payment_source : Option PaymentSourceResponse
  intent : Option Intent
  payer : Option Payer
  status : OrderStatus
deriving Repr

def encOrder (o : Order) : Json :=
  .obj (jopt "create_time" encDateTime o.create_time
    ++ jopt "update_time" encDateTime o.update_time
    ++ jf "id" (.str o.id)
    ++ jopt "purchase_units" (encList encPurchaseUnit) o.purchase_units
    ++ jf "links" (encList encLinkDescription o.links)
    ++ jopt "payment_source" encPaymentSourceResponse o.payment_source
    ++ jopt "intent" encIntent o.intent
    ++ jopt "payer" encPayer o.payer
    ++ jf "status" (encOrderStatus o.status))

def decOrder : Json → Option Order
  | .obj fs => do
    let ct ← getOpt fs "create_time" decDateTime
    let ut ← getOpt fs "update_time" decDateTime
    let i ← getReq fs "id" decStr
    let pu ← getOpt fs "purchase_units" (decList decPurchaseUnit)
    let ls ← getReq fs "links" (decList decLinkDescription)
    let ps ← getOpt fs "payment_source" decPaymentSourceResponse
    let it ← getOpt fs "intent" decIntent
    let py ← getOpt fs "payer" decPayer
    let st ← getReq fs "status" decOrderStatus
    pure ⟨ct, ut, i, pu, ls, ps, it, py, st⟩
  | _ => none

/-- All opaque blobs reachable from the order are non-null. -/
def Order.opaqueOk (o : Order) : Bool :=
  (match o.purchase_units with
   | none => true
   | some l => l.all PurchaseUnit.opaqueOk)
    && (match o.payment_source with
        | none => true
        | some ps => ps.opaqueOk)

/-- derive_builder semantics for the orders Item builder: every field of the
generated builder is Option-wrapped and starts unset; the Item derive carries
no builder default attribute, so build requires every field (the
strip_option setters wrap optional DTO fields). -/
structure ItemBuilder where
  name : Option String
  quantity : Option String
  description : Option (Option String)
  sku : Option (Option String)
  url : Option (Option String)
  category : Option (Option ItemCategoryType)
  image_url : Option (Option String)
  unit_amount : Option Money
  tax : Option (Option Money)
  upc : Option (Option ItemUpc)
deriving Repr

/-- The Default builder: all fields unset. -/
def ItemBuilder.empty : ItemBuilder :=
  ⟨none, none, none, none, none, none, none, none, none, none⟩

/-- Fluent setters, mirroring the strip_option setters derive_builder
generates: optional DTO fields accept the inner value. -/
def ItemBuilder.setName (b : ItemBuilder) (v : String) : ItemBuilder :=
  { b with name := some v }

def ItemBuilder.setQuantity (b : ItemBuilder) (v : String) : ItemBuilder :=
  { b with quantity := some v }

def ItemBuilder.setDescription (b : ItemBuilder) (v : String) : ItemBuilder :=
  { b with description := some (some v) }

def ItemBuilder.setSku (b : ItemBuilder) (v : String) : ItemBuilder :=
  { b with sku := some (some v) }

def ItemBuilder.setUrl (b : ItemBuilder) (v : String) : ItemBuilder :=
  { b with url := some (some v) }

def ItemBuilder.setCategory (b : ItemBuilder) (v : ItemCategoryType) : ItemBuilder :=
  { b with category := some (some v) }

def ItemBuilder.setImageUrl (b : ItemBuilder) (v : String) : ItemBuilder :=
  { b with image_url := some (some v) }

def ItemBuilder.setUnitAmount (b : ItemBuilder) (v : Money) : ItemBuilder :=
  { b with unit_amount := some v }

def ItemBuilder.setTax (b : ItemBuilder) (v : Money) : ItemBuilder :=
  { b with tax := some (some v) }

def ItemBuilder.setUpc (b : ItemBuilder) (v : ItemUpc) : ItemBuilder :=
  { b with upc := some (some v) }

/-- An unset builder field yields the UninitializedField construction error
naming the field; derive_builder checks fields in declaration order. -/
def reqField (o : Option α) (field : String) : Except String α :=
  match o with
  | some a => .ok a
  | none => .error field

/-- derive_builder build for ItemBuilder: without a default attribute every
field, optional DTO fields included, must have been set. -/
def ItemBuilder.build (b : ItemBuilder) : Except String Item := do
  let n ← reqField b.name "name"
  let q ← reqField b.quantity "quantity"
  let d ← reqField b.description "description"
  let sk ← reqField b.sku "sku"
  let u ← reqField b.url "url"
  let c ← reqField b.category "category"
  let iu ← reqField b.image_url "image_url"
  let ua ← reqField b.unit_amount "unit_amount"
  let tx ← reqField b.tax "tax"
  let up ← reqField b.upc "upc"
  pure ⟨n, q, d, sk, u, c, iu, ua, tx, up⟩

/-- derive_builder semantics for the PurchaseUnit builder. The PurchaseUnit
derive carries a struct-level builder default attribute, so build never
fails: every unset field, the required amount included, falls back to its
type Default. -/
structure PurchaseUnitBuilder where
  reference_id : Option (Option String)
  description : Option (Option String)
  custom_id : Option (Option String)
  invoice_id : Option (Option String)
  id : Option (Option String)
  soft_descriptor : Option (Option String)
  items : Option (Option (List Item))
  amount : Option Amount
  payee : Option (Option Payee)
  payment_instruction : Option (Option PaymentInstruction)
  shipping : Option (Option ShippingDetail)
  payments : Option (Option PaymentCollection)
deriving Repr

/-- The Default builder: all fields unset. -/
def PurchaseUnitBuilder.empty : PurchaseUnitBuilder :=
  ⟨none, none, none, none, none, none, none, none, none, none, none, none⟩

/-- Setter for the amount field (strip_option, into). -/
def PurchaseUnitBuilder.setAmount (b : PurchaseUnitBuilder) (v : Amount) :
    PurchaseUnitBuilder :=
  { b with amount := some v }

/-- derive_builder build for PurchaseUnitBuilder: with the struct-level
default attribute, each unset field silently takes its type Default. -/
def PurchaseUnitBuilder.build (b : PurchaseUnitBuilder) : Except String PurchaseUnit :=
  .ok ⟨b.reference_id.getD none, b.description.getD none, b.custom_id.getD none,
    b.invoice_id.getD none, b.id.getD none, b.soft_descriptor.getD none,
    b.items.getD none, b.amount.getD Amount.defaultValue, b.payee.getD none,
    b.payment_instruction.getD none, b.shipping.getD none, b.payments.getD none⟩

end Orders

namespace Tracking

/-- Item in the shipment, tracking variant (skip_serializing_none). -/
structure ShipmentItem where
  name : Option String
  quantity : Option String
  sku : Option String
  url : Option String
  image_url : Option String
  upc : Option ItemUpc
deriving DecidableEq, Repr

def encShipmentItem (i : ShipmentItem) : Json :=
  .obj (jopt "name" Json.str i.name
    ++ jopt "quantity" Json.str i.quantity
    ++ jopt "sku" Json.str i.sku
    ++ jopt "url" Json.str i.url
    ++ jopt "image_url" Json.str i.image_url
    ++ jopt "upc" encItemUpc i.upc)

def decShipmentItem : Json → Option ShipmentItem
  | .obj fs => do
    let n ← getOpt fs "name" decStr
    let q ← getOpt fs "quantity" decStr
    let sk ← getOpt fs "sku" decStr
    let u ← getOpt fs "url" decStr
    let iu ← getOpt fs "image_url" decStr
    let up ← getOpt fs "upc" decItemUpc
    pure ⟨n, q, sk, u, iu, up⟩
  | _ => none

/-- The tracking information for the order (skip_serializing_none). -/
structure OrderTracking where
  tracking_number : String
  carrier_name_other : Option String
  carrier : ShipmentCarrier
  capture_id : String
  notify_payer : Option Bool
  items : Option (List ShipmentItem)
deriving DecidableEq, Repr

def encOrderTracking (t : OrderTracking) : Json :=
  .obj (jf "tracking_number" (.str t.tracking_number)
    ++ jopt "carrier_name_other" Json.str t.carrier_name_other
    ++ jf "carrier" (encShipmentCarrier t.carrier)
    ++ jf "capture_id" (.str t.capture_id)
    ++ jopt "notify_payer" Json.bool t.notify_payer
    ++ jopt "items" (encList encShipmentItem) t.items)

def decOrderTracking : Json → Option OrderTracking
  | .obj fs => do
    let tn ← getReq fs "tracking_number" decStr
    let cno ← getOpt fs "carrier_name_other" decStr
    let c ← getReq fs "carrier" decShipmentCarrier
    let cid ← getReq fs "capture_id" decStr
    let np ← getOpt fs "notify_payer" decBool
    let its ← getOpt fs "items" (decList decShipmentItem)
    pure ⟨tn, cno, c, cid, np, its⟩
  | _ => none

/-- The field keys the OrderTracking decoder inspects. -/
def orderTrackingKeys : List String :=
  ["tracking_number", "carrier_name_other", "carrier", "capture_id", "notify_payer",
   "items"]

end Tracking

namespace Api

/-- The HTTP verb of an endpoint descriptor (reqwest::Method). -/
inductive HttpMethod where
  | get | post | patch | put | delete
deriving DecidableEq, Repr

/-- Update tracking for an order (src/api/tracking.rs): an endpoint
descriptor holding the order id and the OrderTracking body. -/
structure AddOrderTracking where
  order_id : String
  body : Tracking.OrderTracking
deriving DecidableEq, Repr

/-- AddOrderTracking::new. -/
def AddOrderTracking.new (order_id : String) (body : Tracking.OrderTracking) :
    AddOrderTracking :=
  ⟨order_id, body⟩

/-- Endpoint::relative_path for AddOrderTracking. -/
def AddOrderTracking.relative_path (a : AddOrderTracking) : String :=
  "/v2/checkout/orders/" ++ a.order_id ++ "/track"

/-- Endpoint::method for AddOrderTracking. -/
def AddOrderTracking.method (_ : AddOrderTracking) : HttpMethod := .post

/-- Endpoint::body for AddOrderTracking: Some of the stored payload. -/
def AddOrderTracking.body_value (a : AddOrderTracking) : Option Tracking.OrderTracking :=
  some a.body

end Api

namespace Invoice

/-- The status of the invoice (rename_all SCREAMING_SNAKE_CASE). -/
inductive Status where
  | draft | sent | scheduled | paid | marked_as_paid | cancelled | refunded
  | partially_paid | partially_refunded | marked_as_refunded | unpaid | payment_pending
deriving DecidableEq, Repr

def Status.token : Status → String
  | .draft => "DRAFT"
  | .sent => "SENT"
  | .scheduled => "SCHEDULED"
  | .paid => "PAID"
  | .marked_as_paid => "MARKED_AS_PAID"
  | .cancelled => "CANCELLED"
  | .refunded => "REFUNDED"
  | .partially_paid => "PARTIALLY_PAID"
  | .partially_refunded => "PARTIALLY_REFUNDED"
  | .marked_as_refunded => "MARKED_AS_REFUNDED"
  | .unpaid => "UNPAID"
  | .payment_pending => "PAYMENT_PENDING"

def encStatus (s : Status) : Json := .str s.token

def decStatus : Json → Option Status
  | .str s =>
    if s = "DRAFT" then some .draft
    else if s = "SENT" then some .sent
    else if s = "SCHEDULED" then some .scheduled
    else if s = "PAID" then some .paid
    else if s = "MARKED_AS_PAID" then some .marked_as_paid
    else if s = "CANCELLED" then some .cancelled
    else if s = "REFUNDED" then some .refunded
    else if s = "PARTIALLY_PAID" then some .partially_paid
    else if s = "PARTIALLY_REFUNDED" then some .partially_refunded
    else if s = "MARKED_AS_REFUNDED" then some .marked_as_refunded
    else if s = "UNPAID" then some .unpaid
    else if s = "PAYMENT_PENDING" then some .payment_pending
    else none
  | _ => none

/-- The twelve documented invoice status tokens, in source order. -/
def statusTokens : List String :=
  ["DRAFT", "SENT", "SCHEDULED", "PAID", "MARKED_AS_PAID", "CANCELLED", "REFUNDED",
   "PARTIALLY_PAID", "PARTIALLY_REFUNDED", "MARKED_AS_REFUNDED", "UNPAID",
   "PAYMENT_PENDING"]

/-- Tax information (skip_serializing_none). -/
structure Tax where
  name : String
  percent : String
  amount : Option Money
deriving DecidableEq, Repr

def encTax (t : Tax) : Json :=
  .obj (jf "name" (.str t.name)
    ++ jf "percent" (.str t.percent)
    ++ jopt "amount" encMoney t.amount)

def decTax : Json → Option Tax
  | .obj fs => do
    let n ← getReq fs "name" decStr
    let p ← getReq fs "percent" decStr
    let a ← getOpt fs "amount" decMoney
    pure ⟨n, p, a⟩
  | _ => none

/-- The shipping fee (no skip_serializing_none: absent optionals serialize
as explicit nulls). -/
structure ShippingCost where
  amount : Option Money
  tax : Option Tax
deriving DecidableEq, Repr

def encShippingCost (s : ShippingCost) : Json :=
  .obj (jnul "amount" encMoney s.amount ++ jnul "tax" encTax s.tax)

def decShippingCost : Json → Option ShippingCost
  | .obj fs => do
    let a ← getOpt fs "amount" decMoney
    let t ← getOpt fs "tax" decTax
    pure ⟨a, t⟩
  | _ => none

/-- The custom amount to apply to an invoice (skip_serializing_none). -/
structure CustomAmount where
  label : String
  amount : Option Money
deriving DecidableEq, Repr

def encCustomAmount (c : CustomAmount) : Json :=
  .obj (jf "label" (.str c.label) ++ jopt "amount" encMoney c.amount)

def decCustomAmount : Json → Option CustomAmount
  | .obj fs => do
    let l ← getReq fs "label" decStr
    let a ← getOpt fs "amount" decMoney
    pure ⟨l, a⟩
  | _ => none

/-! The invoice monetary aggregate is genuinely recursive in the source:
Amount holds an optional Breakdown, whose discount holds an
AggregatedDiscount, whose invoice_discount holds a Discount, whose amount
field is an optional boxed Amount again. The four types form a mutual
inductive family. -/

mutual

/-- Represents an amount of money, invoice variant (skip_serializing_none):
required currency code and decimal string value, optional breakdown. -/
inductive Amount : Type where
  | mk (currency_code : Currency) (value : String) (breakdown : Option Breakdown) : Amount

/-- The breakdown of the invoice amount (skip_serializing_none). -/
inductive Breakdown : Type where
  | mk (item_total : Option Money) (discount : Option AggregatedDiscount)
      (tax_total : Option Money) (shipping : Option ShippingCost)
      (custom : Option CustomAmount) : Breakdown

/-- The aggregated discount (skip_serializing_none). -/
inductive AggregatedDiscount : Type where
  | mk (invoice_discount : Option Discount) (item_discount : Option Money) :
      AggregatedDiscount

/-- Discount information (no skip_serializing_none: absent optionals
serialize as explicit nulls; the amount field boxes an Amount). -/
inductive Discount : Type where
  | mk (percent : Option String) (amount : Option Amount) : Discount

end

def Amount.value : Amount → String
  | .mk _ v _ => v

def Amount.currency_code : Amount → Currency
  | .mk c _ _ => c

mutual

def encAmount : Amount → Json
  | .mk cc v none =>
      .obj (jf "currency_code" (encCurrency cc) ++ jf "value" (.str v))
  | .mk cc v (some b) =>
      .obj (jf "currency_code" (encCurrency cc) ++ jf "value" (.str v)
        ++ jf "breakdown" (encBreakdown b))

def encBreakdown : Breakdown → Json
  | .mk it d tt sh cu =>
      .obj (jopt "item_total" encMoney it
        ++ (match d with
            | none => []
            | some ad => jf "discount" (encAggregatedDiscount ad))
        ++ jopt "tax_total" encMoney tt
        ++ jopt "shipping" encShippingCost sh
        ++ jopt "custom" encCustomAmount cu)

def encAggregatedDiscount : AggregatedDiscount → Json
  | .mk inv it =>
      .obj ((match inv with
             | none => []
             | some d => jf "invoice_discount" (encDiscount d))
        ++ jopt "item_discount" encMoney it)

def encDiscount : Discount → Json
  | .mk p a =>
      .obj (jnul "percent" Json.str p
        ++ jf "amount" (match a with
                        | none => Json.null
                        | some am => encAmount am))

end

/-!
The invoice decoders recurse on the JSON document, so they are written
against a fuel parameter that the public entry points instantiate with the
document size: every recursive call strictly shrinks the document while
consuming one unit of fuel, so a fuel equal to the size never runs out.
-/

/-- The non-recursive tail of the invoice Breakdown decoder: the tax_total,
shipping and custom fields. -/
def decBreakdownRest (fs : List (String × Json)) (it : Option Money)
    (d : Option AggregatedDiscount) : Option Breakdown := do
  let tt ← getOpt fs "tax_total" decMoney
  let sh ← getOpt fs "shipping" decShippingCost
  let cu ← getOpt fs "custom" decCustomAmount
  pure (.mk it d tt sh cu)

mutual

def decAmountF : Nat → Json → Option Amount
  | 0, _ => none
  | n + 1, .obj fs =>
    match getReq fs "currency_code" decCurrency with
    | none => none
    | some cc =>
      match getReq fs "value" decStr with
      | none => none
      | some v =>
        match Json.lookup "breakdown" fs with
        | none => some (.mk cc v none)
        | some .null => some (.mk cc v none)
        | some jb =>
          match decBreakdownF n jb with
          | some b => some (.mk cc v (some b))
          | none => none
  | _ + 1, _ => none

def decBreakdownF : Nat → Json → Option Breakdown
  | 0, _ => none
  | n + 1, .obj fs =>
    match getOpt fs "item_total" decMoney with
    | none => none
    | some it =>
      match Json.lookup "discount" fs with
      | some jd =>
        match jd with
        | .null => decBreakdownRest fs it none
        | _ =>
          match decAggregatedDiscountF n jd with
          | some ad => decBreakdownRest fs it (some ad)
          | none => none
      | none => decBreakdownRest fs it none
  | _ + 1, _ => none

def decAggregatedDiscountF : Nat → Json → Option AggregatedDiscount
  | 0, _ => none
  | n + 1, .obj fs =>
    match Json.lookup "invoice_discount" fs with
    | some jd =>
      match jd with
      | .null =>
        match getOpt fs "item_discount" decMoney with
        | some it => some (.mk none it)
        | none => none
      | _ =>
        match decDiscountF n jd with
        | some d =>
          match getOpt fs "item_discount" decMoney with
          | some it => some (.mk (some d) it)
          | none => none
        | none => none
    | none =>
      match getOpt fs "item_discount" decMoney with
      | some it => some (.mk none it)
      | none => none
  | _ + 1, _ => none

def decDiscountF : Nat → Json → Option Discount
  | 0, _ => none
  | n + 1, .obj fs =>
    match getOpt fs "percent" decStr with
    | none => none
    | some p =>
      match Json.lookup "amount" fs with
      | some ja =>
        match ja with
        | .null => some (.mk p none)
        | _ =>
          match decAmountF n ja with
          | some a => some (.mk p (some a))
          | none => none
      | none => some (.mk p none)
  | _ + 1, _ => none

end

/-- Public invoice Amount decoder: the document size is always enough fuel. -/
def decAmount (j : Json) : Option Amount := decAmountF j.size j

/-- Public invoice Discount decoder. -/
def decDiscount (j : Json) : Option Discount := decDiscountF j.size j

end Invoice

/-- The field list of a JSON object (empty for non-objects); used to state
properties about which keys an encoder emits. -/
def Json.fields : Json → List (String × Json)
  | .obj fs => fs
  | _ => []

namespace Orders

/-- The field keys the orders Amount decoder inspects. -/
def amountKeys : List String := ["currency_code", "value", "breakdown"]

end Orders

/-! Concrete wire values used by witnesses and counterexamples. -/

namespace Examples

def money100 : Money := ⟨.usd, "100.00"⟩

def linkSelf : LinkDescription :=
  ⟨"https://api.paypal.com/v2/checkout/orders/5O190127TN364715T", "self", some "GET"⟩

/-- A phone number whose optional country code is absent. -/
def phoneNoCc : Orders.PhoneNumber := ⟨none, "5551234"⟩

/-- A refund whose optional fields are all absent. -/
def bareSellerPayableBreakdown : Orders.SellerPayableBreakdown :=
  ⟨none, none, none, none, none, none, none, money100⟩

def bareRefund : Orders.Refund :=
  ⟨.completed, none, "REF-1", none, none, none, none, bareSellerPayableBreakdown, [],
    money100, none, none, none⟩

/-- A tracking payload with only the required fields. -/
def trackingMinimal : Tracking.OrderTracking :=
  ⟨"TRACK123", none, .ups, "CAPT123", none, none⟩

/-- A payment source whose opaque card blob is the literal null, the corner
in which the serde round trip loses the Some(Null) distinction. -/
def nullCardSource : Orders.PaymentSourceResponse :=
  ⟨some Json.null, none, none, none, none, none, none, none, none, none, none, none,
    none, none⟩

def badOrder : Orders.Order :=
  ⟨none, none, "ORD-1", none, [], some nullCardSource, none, none, .created⟩

def goodOrder : Orders.Order :=
  ⟨none, none, "5O190127TN364715T",
    some [Orders.PurchaseUnit.new (Orders.Amount.new .usd "100.00")], [linkSelf], none,
    some .capture, none, .created⟩

def bareAmount : Orders.Amount := Orders.Amount.new .eur "19.99"

/-- Authorization document carrying only the two required fields. -/
def authMinimalDoc : Json :=
  .obj [("status", .str "CREATED"),
        ("status_details", .obj [("reason", .str "PENDING")])]

/-- Authorization fields with several optional fields present but the
required status_details key missing. -/
def authNoDetailsFields : List (String × Json) :=
  [("status", .str "CREATED"), ("id", .str "AUTH-7"),
   ("amount", .obj [("currency_code", .str "USD"), ("value", .str "10.00")])]

/-- A minimal OrderTracking document as a field list. -/
def trackingDocFields : List (String × Json) :=
  [("tracking_number", .str "TRACK123"), ("carrier", .str "UPS"),
   ("capture_id", .str "CAPT123")]

/-- A minimal orders Amount document as a field list. -/
def amountDocFields : List (String × Json) :=
  [("currency_code", .str "USD"), ("value", .str "19.99")]

end Examples

namespace JsonLemmas

@[simp] theorem lookup_nil (k : String) : Json.lookup k [] = none := rfl

@[simp] theorem orElse_none_eq (o : Option α) : (o.orElse fun _ => none) = o := by
  cases o <;> rfl

@[simp] theorem lookup_append (k : String) (l₁ l₂ : List (String × Json)) :
    Json.lookup k (l₁ ++ l₂) =
      ((Json.lookup k l₁).orElse fun _ => Json.lookup k l₂) := by
  induction l₁ with
  | nil => simp [Json.lookup]
  | cons hd tl ih =>
      obtain ⟨k₂, v⟩ := hd
      by_cases h : k₂ = k
      · simp [Json.lookup, h]
      · simp [Json.lookup, h, ih]

@[simp] theorem lookup_jf_same (k : String) (v : Json) :
    Json.lookup k (jf k v) = some v := by
  simp [jf, Json.lookup]

theorem lookup_jf_other (h : k₂ ≠ k) (v : Json) :
    Json.lookup k (jf k₂ v) = none := by
  simp [jf, Json.lookup, h]

@[simp] theorem lookup_jopt_same (k : String) (enc : α → Json) (o : Option α) :
    Json.lookup k (jopt k enc o) = o.map enc := by
  cases o <;> simp [jopt, Json.lookup]

theorem lookup_jopt_other (h : k₂ ≠ k) (enc : α → Json) (o : Option α) :
    Json.lookup k (jopt k₂ enc o) = none := by
  cases o <;> simp [jopt, Json.lookup, h]

@[simp] theorem lookup_jnul_same (k : String) (enc : α → Json) (o : Option α) :
    Json.lookup k (jnul k enc o) = some (encNul enc o) := by
  simp [jnul, Json.lookup]

theorem lookup_jnul_other (h : k₂ ≠ k) (enc : α → Json) (o : Option α) :
    Json.lookup k (jnul k₂ enc o) = none := by
  simp [jnul, Json.lookup, h]

@[simp] theorem decOptJson_none (dec : Json → Option α) :
    decOptJson dec none = some none := rfl

/-- decOptJson on a present non-null document runs the inner decoder. -/
theorem decOptJson_some_of_ne_null (dec : Json → Option α) (j : Json)
    (h : j ≠ Json.null) : decOptJson dec (some j) = (dec j).map some := by
  cases j <;> simp_all [decOptJson]

/-- Round trip through an option field with omission on encode. -/
theorem decOptJson_map (dec : Json → Option α) (enc : α → Json)
    (h : ∀ a, dec (enc a) = some a) (hn : ∀ a, enc a ≠ Json.null) (o : Option α) :
    decOptJson dec (o.map enc) = some o := by
  cases o with
  | none => rfl
  | some a =>
      rw [Option.map_some', decOptJson_some_of_ne_null dec (enc a) (hn a), h a,
        Option.map_some']

/-- Round trip through an option field with null emission on encode. -/
theorem decOptJson_encNul (dec : Json → Option α) (enc : α → Json)
    (h : ∀ a, dec (enc a) = some a) (hn : ∀ a, enc a ≠ Json.null) (o : Option α) :
    decOptJson dec (some (encNul enc o)) = some o := by
  cases o with
  | none => rfl
  | some a =>
      rw [encNul, decOptJson_some_of_ne_null dec (enc a) (hn a), h a, Option.map_some']

/-- Round trip through an opaque serde_json Value option field, provided the
stored blob is not the literal null. -/
theorem decOptJson_value (o : Option Json) (h : optJsonOk o = true) :
    decOptJson decValue (o.map encValue) = some o := by
  cases o with
  | none => rfl
  | some j => cases j <;> simp_all [decOptJson, decValue, encValue, optJsonOk]

/-- As decOptJson_value but for a field without skip_serializing_none. -/
theorem decOptJson_value_nul (o : Option Json) (h : optJsonOk o = true) :
    decOptJson decValue (some (encNul encValue o)) = some o := by
  cases o with
  | none => rfl
  | some j => cases j <;> simp_all [decOptJson, decValue, encValue, encNul, optJsonOk]

@[simp] theorem decStr_str (s : String) : decStr (.str s) = some s := rfl

@[simp] theorem decBool_bool (b : Bool) : decBool (.bool b) = some b := rfl

@[simp] theorem decNum_num (n : Int) : decNum (.num n) = some n := rfl

theorem str_ne_null (s : String) : Json.str s ≠ Json.null := by simp

/-- Element-wise round trip of list encoding. -/
theorem decElems_map (dec : Json → Option α) (enc : α → Json) (l : List α)
    (h : ∀ a ∈ l, dec (enc a) = some a) :
    decElems dec (l.map enc) = some l := by
  induction l with
  | nil => rfl
  | cons hd tl ih =>
      have hhd := h hd (by simp)
      have htl := ih (fun a ha => h a (by simp [ha]))
      simp [decElems, hhd, htl]

/-- Round trip of a Vec field whose elements all round trip. -/
theorem decList_encList (dec : Json → Option α) (enc : α → Json) (l : List α)
    (h : ∀ a ∈ l, dec (enc a) = some a) :
    decList dec (encList enc l) = some l := by
  simp [decList, encList, decElems_map dec enc l h]

theorem encList_ne_null (enc : α → Json) (l : List α) :
    encList enc l ≠ Json.null := by simp [encList]

end JsonLemmas

namespace Rt

open JsonLemmas

@[simp] theorem rt_currency (c : Currency) : decCurrency (encCurrency c) = some c := by
  cases c <;> simp [decCurrency, encCurrency, Currency.token]

@[simp] theorem rt_phoneType (p : PhoneType) : decPhoneType (encPhoneType p) = some p := by
  cases p <;> simp [decPhoneType, encPhoneType, PhoneType.token]

@[simp] theorem rt_shipmentCarrier (c : ShipmentCarrier) :
    decShipmentCarrier (encShipmentCarrier c) = some c := by
  cases c <;> simp [decShipmentCarrier, encShipmentCarrier, ShipmentCarrier.token]

@[simp] theorem rt_dateTime (d : DateTimeUtc) : decDateTime (encDateTime d) = some d := rfl

@[simp] theorem optRt_str (o : Option String) :
    decOptJson decStr (o.map Json.str) = some o :=
  decOptJson_map decStr Json.str (fun _ => rfl) (fun _ => by simp) o

@[simp] theorem optRt_bool (o : Option Bool) :
    decOptJson decBool (o.map Json.bool) = some o :=
  decOptJson_map decBool Json.bool (fun _ => rfl) (fun _ => by simp) o

@[simp] theorem optRt_dateTime (o : Option DateTimeUtc) :
    decOptJson decDateTime (o.map encDateTime) = some o :=
  decOptJson_map decDateTime encDateTime rt_dateTime (fun _ => by simp [encDateTime]) o

@[simp] theorem optRt_phoneType (o : Option PhoneType) :
    decOptJson decPhoneType (o.map encPhoneType) = some o :=
  decOptJson_map decPhoneType encPhoneType rt_phoneType (fun _ => by simp [encPhoneType]) o

@[simp] theorem rt_money (m : Money) : decMoney (encMoney m) = some m := by
  cases m
  simp [decMoney, encMoney, getReq, lookup_jf_other, decStr]

@[simp] theorem optRt_money (o : Option Money) :
    decOptJson decMoney (o.map encMoney) = some o :=
  decOptJson_map decMoney encMoney rt_money (fun _ => by simp [encMoney]) o

@[simp] theorem rt_address (a : Address) : decAddress (encAddress a) = some a := by
  cases a
  simp [decAddress, encAddress, getReq, getOpt, lookup_jf_other, lookup_jopt_other, decStr]

@[simp] theorem optRt_address (o : Option Address) :
    decOptJson decAddress (o.map encAddress) = some o :=
  decOptJson_map decAddress encAddress rt_address (fun _ => by simp [encAddress]) o

@[simp] theorem rt_linkDescription (l : LinkDescription) :
    decLinkDescription (encLinkDescription l) = some l := by
  cases l
  simp [decLinkDescription, encLinkDescription, getReq, getOpt, lookup_jf_other,
    lookup_jopt_other, decStr]

@[simp] theorem rtList_linkDescription (l : List LinkDescription) :
    decList decLinkDescription (encList encLinkDescription l) = some l :=
  decList_encList _ _ _ (fun a _ => rt_linkDescription a)

@[simp] theorem optRtList_linkDescription (o : Option (List LinkDescription)) :
    decOptJson (decList decLinkDescription) (o.map (encList encLinkDescription)) = some o :=
  decOptJson_map _ _ rtList_linkDescription
    (fun _ => encList_ne_null encLinkDescription _) o

@[simp] theorem rt_itemUpc (u : ItemUpc) : decItemUpc (encItemUpc u) = some u := by
  cases u
  simp [decItemUpc, encItemUpc, getReq, lookup_jf_other, decStr]

@[simp] theorem optRt_itemUpc (o : Option ItemUpc) :
    decOptJson decItemUpc (o.map encItemUpc) = some o :=
  decOptJson_map decItemUpc encItemUpc rt_itemUpc (fun _ => by simp [encItemUpc]) o

end Rt

namespace Rt

open JsonLemmas Orders

@[simp] theorem rt_intent (i : Intent) : decIntent (encIntent i) = some i := by
  cases i <;> simp [decIntent, encIntent, Intent.token]

@[simp] theorem rt_taxIdType (t : TaxIdType) : decTaxIdType (encTaxIdType t) = some t := by
  cases t <;> simp [decTaxIdType, encTaxIdType, TaxIdType.token]

@[simp] theorem rt_disbursementMode (d : DisbursementMode) :
    decDisbursementMode (encDisbursementMode d) = some d := by
  cases d <;> simp [decDisbursementMode, encDisbursementMode, DisbursementMode.token]

@[simp] theorem optRt_disbursementMode (o : Option DisbursementMode) :
    decOptJson decDisbursementMode (o.map encDisbursementMode) = some o :=
  decOptJson_map _ _ rt_disbursementMode (fun a => by cases a <;> simp [encDisbursementMode]) o

@[simp] theorem rt_itemCategoryType (c : ItemCategoryType) :
    decItemCategoryType (encItemCategoryType c) = some c := by
  cases c <;> simp [decItemCategoryType, encItemCategoryType, ItemCategoryType.token]

@[simp] theorem optRt_itemCategoryType (o : Option ItemCategoryType) :
    decOptJson decItemCategoryType (o.map encItemCategoryType) = some o :=
  decOptJson_map _ _ rt_itemCategoryType (fun a => by simp [encItemCategoryType]) o

@[simp] theorem rt_shippingType (t : ShippingType) :
    decShippingType (encShippingType t) = some t := by
  cases t <;> simp [decShippingType, encShippingType, ShippingType.token]

@[simp] theorem optRt_shippingType (o : Option ShippingType) :
    decOptJson decShippingType (o.map encShippingType) = some o :=
  decOptJson_map _ _ rt_shippingType (fun a => by simp [encShippingType]) o

@[simp] theorem rt_trackerStatus (t : TrackerStatus) :
    decTrackerStatus (encTrackerStatus t) = some t := by
  cases t <;> simp [decTrackerStatus, encTrackerStatus, TrackerStatus.token]

@[simp] theorem optRt_trackerStatus (o : Option TrackerStatus) :
    decOptJson decTrackerStatus (o.map encTrackerStatus) = some o :=
  decOptJson_map _ _ rt_trackerStatus (fun a => by simp [encTrackerStatus]) o

@[simp] theorem rt_authorizationStatus (s : AuthorizationStatus) :
    decAuthorizationStatus (encAuthorizationStatus s) = some s := by
  cases s <;> simp [decAuthorizationStatus, encAuthorizationStatus, AuthorizationStatus.token]

@[simp] theorem rt_sellerProtectionStatus (s : SellerProtectionStatus) :
    decSellerProtectionStatus (encSellerProtectionStatus s) = some s := by
  cases s <;>
    simp [decSellerProtectionStatus, encSellerProtectionStatus, SellerProtectionStatus.token]

@[simp] theorem rt_captureStatus (s : CaptureStatus) :
    decCaptureStatus (encCaptureStatus s) = some s := by
  cases s <;> simp [decCaptureStatus, encCaptureStatus, CaptureStatus.token]

@[simp] theorem rt_captureStatusDetailsReason (r : CaptureStatusDetailsReason) :
    decCaptureStatusDetailsReason (encCaptureStatusDetailsReason r) = some r := by
  cases r <;>
    simp [decCaptureStatusDetailsReason, encCaptureStatusDetailsReason,
      CaptureStatusDetailsReason.token]

@[simp] theorem rt_refundStatus (s : RefundStatus) :
    decRefundStatus (encRefundStatus s) = some s := by
  cases s <;> simp [decRefundStatus, encRefundStatus, RefundStatus.token]

@[simp] theorem rt_refundStatusDetailsReason (r : RefundStatusDetailsReason) :
    decRefundStatusDetailsReason (encRefundStatusDetailsReason r) = some r := by
  cases r
  simp [decRefundStatusDetailsReason, encRefundStatusDetailsReason,
    RefundStatusDetailsReason.token]

@[simp] theorem rt_orderStatus (s : OrderStatus) :
    decOrderStatus (encOrderStatus s) = some s := by
  cases s <;> simp [decOrderStatus, encOrderStatus, OrderStatus.token]

@[simp] theorem optRt_intent (o : Option Intent) :
    decOptJson decIntent (o.map encIntent) = some o :=
  decOptJson_map _ _ rt_intent (fun a => by simp [encIntent]) o

@[simp] theorem rt_payerName (n : PayerName) : decPayerName (encPayerName n) = some n := by
  cases n
  simp [decPayerName, encPayerName, getReq, lookup_jf_other, decStr]

@[simp] theorem optRt_payerName (o : Option PayerName) :
    decOptJson decPayerName (o.map encPayerName) = some o :=
  decOptJson_map _ _ rt_payerName (fun a => by simp [encPayerName]) o

@[simp] theorem nulRt_str (o : Option String) :
    decOptJson decStr (some (encNul Json.str o)) = some o :=
  decOptJson_encNul decStr Json.str (fun _ => rfl) (fun _ => by simp) o

@[simp] theorem rt_phoneNumber (p : PhoneNumber) :
    decPhoneNumber (encPhoneNumber p) = some p := by
  cases p
  simp [decPhoneNumber, encPhoneNumber, getReq, getOpt, lookup_jf_other,
    lookup_jnul_other, decStr]

@[simp] theorem optRt_phoneNumber (o : Option PhoneNumber) :
    decOptJson decPhoneNumber (o.map encPhoneNumber) = some o :=
  decOptJson_map _ _ rt_phoneNumber (fun a => by simp [encPhoneNumber]) o

@[simp] theorem rt_phone (p : Phone) : decPhone (encPhone p) = some p := by
  cases p
  simp [decPhone, encPhone, getReq, getOpt, lookup_jf_other, lookup_jopt_other]

@[simp] theorem optRt_phone (o : Option Phone) :
    decOptJson decPhone (o.map encPhone) = some o :=
  decOptJson_map _ _ rt_phone (fun a => by simp [encPhone]) o

@[simp] theorem rt_taxInfo (t : TaxInfo) : decTaxInfo (encTaxInfo t) = some t := by
  cases t
  simp [decTaxInfo, encTaxInfo, getReq, lookup_jf_other, decStr]

@[simp] theorem optRt_taxInfo (o : Option TaxInfo) :
    decOptJson decTaxInfo (o.map encTaxInfo) = some o :=
  decOptJson_map _ _ rt_taxInfo (fun a => by simp [encTaxInfo]) o

@[simp] theorem rt_payer (p : Payer) : decPayer (encPayer p) = some p := by
  cases p
  simp [decPayer, encPayer, getOpt, lookup_jopt_other]

@[simp] theorem optRt_payer (o : Option Payer) :
    decOptJson decPayer (o.map encPayer) = some o :=
  decOptJson_map _ _ rt_payer (fun a => by simp [encPayer]) o

@[simp] theorem rt_breakdown (b : Orders.Breakdown) :
    decBreakdown (encBreakdown b) = some b := by
  cases b
  simp [decBreakdown, encBreakdown, getOpt, lookup_jopt_other]

@[simp] theorem optRt_breakdown (o : Option Orders.Breakdown) :
    decOptJson decBreakdown (o.map encBreakdown) = some o :=
  decOptJson_map _ _ rt_breakdown (fun a => by simp [encBreakdown]) o

@[simp] theorem rt_amount (a : Orders.Amount) : decAmount (encAmount a) = some a := by
  cases a
  simp [decAmount, encAmount, getReq, getOpt, lookup_jf_other, lookup_jopt_other, decStr]

@[simp] theorem optRt_amount (o : Option Orders.Amount) :
    decOptJson decAmount (o.map encAmount) = some o :=
  decOptJson_map _ _ rt_amount (fun a => by simp [encAmount]) o

@[simp] theorem rt_payee (p : Payee) : decPayee (encPayee p) = some p := by
  cases p
  simp [decPayee, encPayee, getOpt, lookup_jopt_other]

@[simp] theorem optRt_payee (o : Option Payee) :
    decOptJson decPayee (o.map encPayee) = some o :=
  decOptJson_map _ _ rt_payee (fun a => by simp [encPayee]) o

@[simp] theorem rt_platformFee (f : PlatformFee) :
    decPlatformFee (encPlatformFee f) = some f := by
  cases f
  simp [decPlatformFee, encPlatformFee, getReq, getOpt, lookup_jf_other, lookup_jopt_other]

@[simp] theorem rtList_platformFee (l : List PlatformFee) :
    decList decPlatformFee (encList encPlatformFee l) = some l :=
  decList_encList _ _ _ (fun a _ => rt_platformFee a)

@[simp] theorem optRtList_platformFee (o : Option (List PlatformFee)) :
    decOptJson (decList decPlatformFee) (o.map (encList encPlatformFee)) = some o :=
  decOptJson_map _ _ rtList_platformFee (fun a => encList_ne_null encPlatformFee a) o

@[simp] theorem rt_paymentInstruction (p : PaymentInstruction) :
    decPaymentInstruction (encPaymentInstruction p) = some p := by
  cases p
  simp [decPaymentInstruction, encPaymentInstruction, getOpt, lookup_jopt_other]

@[simp] theorem optRt_paymentInstruction (o : Option PaymentInstruction) :
    decOptJson decPaymentInstruction (o.map encPaymentInstruction) = some o :=
  decOptJson_map _ _ rt_paymentInstruction (fun a => by simp [encPaymentInstruction]) o

end Rt

namespace Rt

open JsonLemmas Orders

@[simp] theorem rt_shippingDetailName (n : ShippingDetailName) :
    decShippingDetailName (encShippingDetailName n) = some n := by
  cases n
  simp [decShippingDetailName, encShippingDetailName, getReq, decStr]

@[simp] theorem optRt_shippingDetailName (o : Option ShippingDetailName) :
    decOptJson decShippingDetailName (o.map encShippingDetailName) = some o :=
  decOptJson_map _ _ rt_shippingDetailName (fun a => by simp [encShippingDetailName]) o

@[simp] theorem rt_shipmentItem (i : Orders.ShipmentItem) :
    decShipmentItem (encShipmentItem i) = some i := by
  cases i
  simp [decShipmentItem, encShipmentItem, getOpt, lookup_jopt_other]

@[simp] theorem rtList_shipmentItem (l : List Orders.ShipmentItem) :
    decList decShipmentItem (encList encShipmentItem l) = some l :=
  decList_encList _ _ _ (fun a _ => rt_shipmentItem a)

@[simp] theorem optRtList_shipmentItem (o : Option (List Orders.ShipmentItem)) :
    decOptJson (decList decShipmentItem) (o.map (encList encShipmentItem)) = some o :=
  decOptJson_map _ _ rtList_shipmentItem (fun a => encList_ne_null encShipmentItem a) o

@[simp] theorem rt_transactionTracker (t : TransactionTracker) :
    decTransactionTracker (encTransactionTracker t) = some t := by
  cases t
  simp [decTransactionTracker, encTransactionTracker, getOpt, lookup_jopt_other]

@[simp] theorem rtList_transactionTracker (l : List TransactionTracker) :
    decList decTransactionTracker (encList encTransactionTracker l) = some l :=
  decList_encList _ _ _ (fun a _ => rt_transactionTracker a)

@[simp] theorem optRtList_transactionTracker (o : Option (List TransactionTracker)) :
    decOptJson (decList decTransactionTracker) (o.map (encList encTransactionTracker))
      = some o :=
  decOptJson_map _ _ rtList_transactionTracker
    (fun a => encList_ne_null encTransactionTracker a) o

@[simp] theorem rt_shippingOption (s : ShippingOption) :
    decShippingOption (encShippingOption s) = some s := by
  cases s
  simp [decShippingOption, encShippingOption, getReq, getOpt, lookup_jf_other,
    lookup_jopt_other, decStr, decBool]

@[simp] theorem rtList_shippingOption (l : List ShippingOption) :
    decList decShippingOption (encList encShippingOption l) = some l :=
  decList_encList _ _ _ (fun a _ => rt_shippingOption a)

@[simp] theorem optRtList_shippingOption (o : Option (List ShippingOption)) :
    decOptJson (decList decShippingOption) (o.map (encList encShippingOption)) = some o :=
  decOptJson_map _ _ rtList_shippingOption (fun a => encList_ne_null encShippingOption a) o

@[simp] theorem rt_shippingDetail (s : ShippingDetail) :
    decShippingDetail (encShippingDetail s) = some s := by
  cases s
  simp [decShippingDetail, encShippingDetail, getOpt, lookup_jopt_other]

@[simp] theorem optRt_shippingDetail (o : Option ShippingDetail) :
    decOptJson decShippingDetail (o.map encShippingDetail) = some o :=
  decOptJson_map _ _ rt_shippingDetail (fun a => by simp [encShippingDetail]) o

@[simp] theorem rt_item (i : Orders.Item) : decItem (encItem i) = some i := by
  cases i
  simp [decItem, encItem, getReq, getOpt, lookup_jf_other, lookup_jopt_other, decStr]

@[simp] theorem rtList_item (l : List Orders.Item) :
    decList decItem (encList encItem l) = some l :=
  decList_encList _ _ _ (fun a _ => rt_item a)

@[simp] theorem optRtList_item (o : Option (List Orders.Item)) :
    decOptJson (decList decItem) (o.map (encList encItem)) = some o :=
  decOptJson_map _ _ rtList_item (fun a => encList_ne_null encItem a) o

@[simp] theorem rtList_str (l : List String) :
    decList decStr (encList Json.str l) = some l :=
  decList_encList _ _ _ (fun _ _ => rfl)

@[simp] theorem nulRt_sellerProtectionStatus (o : Option SellerProtectionStatus) :
    decOptJson decSellerProtectionStatus (some (encNul encSellerProtectionStatus o))
      = some o :=
  decOptJson_encNul _ _ rt_sellerProtectionStatus
    (fun a => by simp [encSellerProtectionStatus]) o

@[simp] theorem nulRtList_str (o : Option (List String)) :
    decOptJson (decList decStr) (some (encNul (encList Json.str) o)) = some o :=
  decOptJson_encNul _ _ rtList_str (fun a => encList_ne_null Json.str a) o

@[simp] theorem rt_sellerProtection (s : SellerProtection) :
    decSellerProtection (encSellerProtection s) = some s := by
  cases s
  simp [decSellerProtection, encSellerProtection, getOpt, lookup_jnul_other]

@[simp] theorem optRt_sellerProtection (o : Option SellerProtection) :
    decOptJson decSellerProtection (o.map encSellerProtection) = some o :=
  decOptJson_map _ _ rt_sellerProtection (fun a => by simp [encSellerProtection]) o

@[simp] theorem nulRt_sellerProtection (o : Option SellerProtection) :
    decOptJson decSellerProtection (some (encNul encSellerProtection o)) = some o :=
  decOptJson_encNul _ _ rt_sellerProtection (fun a => by simp [encSellerProtection]) o

@[simp] theorem rt_networkTransactionReference (n : NetworkTransactionReference) :
    decNetworkTransactionReference (encNetworkTransactionReference n) = some n := by
  cases n
  simp [decNetworkTransactionReference, encNetworkTransactionReference, getReq, getOpt,
    lookup_jf_other, lookup_jnul_other, decStr]

@[simp] theorem optRt_networkTransactionReference (o : Option NetworkTransactionReference) :
    decOptJson decNetworkTransactionReference (o.map encNetworkTransactionReference)
      = some o :=
  decOptJson_map _ _ rt_networkTransactionReference
    (fun a => by simp [encNetworkTransactionReference]) o

@[simp] theorem rt_authorizationStatusDetailsReason (r : AuthorizationStatusDetailsReason) :
    decAuthorizationStatusDetailsReason (encAuthorizationStatusDetailsReason r)
      = some r := by
  cases r
  simp [decAuthorizationStatusDetailsReason, encAuthorizationStatusDetailsReason,
    AuthorizationStatusDetailsReason.token]

@[simp] theorem rt_authorizationStatusDetails (d : AuthorizationStatusDetails) :
    decAuthorizationStatusDetails (encAuthorizationStatusDetails d) = some d := by
  cases d
  simp [decAuthorizationStatusDetails, encAuthorizationStatusDetails, getReq]

@[simp] theorem nulRt_money (o : Option Money) :
    decOptJson decMoney (some (encNul encMoney o)) = some o :=
  decOptJson_encNul _ _ rt_money (fun a => by simp [encMoney]) o

@[simp] theorem nulRt_dateTime (o : Option DateTimeUtc) :
    decOptJson decDateTime (some (encNul encDateTime o)) = some o :=
  decOptJson_encNul _ _ rt_dateTime (fun a => by simp [encDateTime]) o

@[simp] theorem nulRtList_linkDescription (o : Option (List LinkDescription)) :
    decOptJson (decList decLinkDescription) (some (encNul (encList encLinkDescription) o))
      = some o :=
  decOptJson_encNul _ _ rtList_linkDescription
    (fun a => encList_ne_null encLinkDescription a) o

theorem rt_authorizationWithData (a : AuthorizationWithData)
    (h : a.opaqueOk = true) :
    decAuthorizationWithData (encAuthorizationWithData a) = some a := by
  obtain ⟨st, sd, i, inv, cu, ls, am, sp, et, ct, ut, pr⟩ := a
  simp [AuthorizationWithData.opaqueOk] at h
  simp [decAuthorizationWithData, encAuthorizationWithData, getReq, getOpt,
    lookup_jf_other, lookup_jnul_other, decOptJson_value_nul pr h]

theorem rtList_authorizationWithData (l : List AuthorizationWithData)
    (h : l.all AuthorizationWithData.opaqueOk = true) :
    decList decAuthorizationWithData (encList encAuthorizationWithData l) = some l :=
  decList_encList _ _ _
    (fun a ha => rt_authorizationWithData a (List.all_eq_true.mp h a ha))

@[simp] theorem rt_captureStatusDetails (d : CaptureStatusDetails) :
    decCaptureStatusDetails (encCaptureStatusDetails d) = some d := by
  cases d
  simp [decCaptureStatusDetails, encCaptureStatusDetails, getReq]

@[simp] theorem optRt_captureStatusDetails (o : Option CaptureStatusDetails) :
    decOptJson decCaptureStatusDetails (o.map encCaptureStatusDetails) = some o :=
  decOptJson_map _ _ rt_captureStatusDetails (fun a => by simp [encCaptureStatusDetails]) o

@[simp] theorem rt_exchangeRateDetail (e : ExchangeRateDetail) :
    decExchangeRateDetail (encExchangeRateDetail e) = some e := by
  cases e
  simp [decExchangeRateDetail, encExchangeRateDetail, getReq, getOpt, lookup_jf_other,
    lookup_jnul_other, decStr]

@[simp] theorem nulRt_exchangeRateDetail (o : Option ExchangeRateDetail) :
    decOptJson decExchangeRateDetail (some (encNul encExchangeRateDetail o)) = some o :=
  decOptJson_encNul _ _ rt_exchangeRateDetail (fun a => by simp [encExchangeRateDetail]) o

@[simp] theorem nulRtList_platformFee (o : Option (List PlatformFee)) :
    decOptJson (decList decPlatformFee) (some (encNul (encList encPlatformFee) o))
      = some o :=
  decOptJson_encNul _ _ rtList_platformFee (fun a => encList_ne_null encPlatformFee a) o

@[simp] theorem rt_sellerReceivableBreakdown (s : SellerReceivableBreakdown) :
    decSellerReceivableBreakdown (encSellerReceivableBreakdown s) = some s := by
  cases s
  simp [decSellerReceivableBreakdown, encSellerReceivableBreakdown, getReq, getOpt,
    lookup_jf_other, lookup_jnul_other]

@[simp] theorem optRt_sellerReceivableBreakdown (o : Option SellerReceivableBreakdown) :
    decOptJson decSellerReceivableBreakdown (o.map encSellerReceivableBreakdown)
      = some o :=
  decOptJson_map _ _ rt_sellerReceivableBreakdown
    (fun a => by simp [encSellerReceivableBreakdown]) o

theorem rt_capture (c : Capture) (h : c.opaqueOk = true) :
    decCapture (encCapture c) = some c := by
  obtain ⟨ct, ut, i, inv, cu, fc, ls, am, ntr, sp, st, sd, srb, dm, pr⟩ := c
  simp [Capture.opaqueOk] at h
  simp [decCapture, encCapture, getReq, getOpt, lookup_jf_other, lookup_jopt_other,
    decOptJson_value pr h]

theorem rtList_capture (l : List Capture) (h : l.all Capture.opaqueOk = true) :
    decList decCapture (encList encCapture l) = some l :=
  decList_encList _ _ _ (fun a ha => rt_capture a (List.all_eq_true.mp h a ha))

@[simp] theorem rt_refundStatusDetails (d : RefundStatusDetails) :
    decRefundStatusDetails (encRefundStatusDetails d) = some d := by
  cases d
  simp [decRefundStatusDetails, encRefundStatusDetails, getReq]

@[simp] theorem nulRt_refundStatusDetails (o : Option RefundStatusDetails) :
    decOptJson decRefundStatusDetails (some (encNul encRefundStatusDetails o)) = some o :=
  decOptJson_encNul _ _ rt_refundStatusDetails (fun a => by simp [encRefundStatusDetails]) o

@[simp] theorem rt_exchangeRate (e : ExchangeRate) :
    decExchangeRate (encExchangeRate e) = some e := by
  cases e
  simp [decExchangeRate, encExchangeRate, getReq, lookup_jf_other, decStr]

@[simp] theorem rt_netAmountBreakdown (n : NetAmountBreakdown) :
    decNetAmountBreakdown (encNetAmountBreakdown n) = some n := by
  cases n
  simp [decNetAmountBreakdown, encNetAmountBreakdown, getReq, lookup_jf_other]

@[simp] theorem rtList_netAmountBreakdown (l : List NetAmountBreakdown) :
    decList decNetAmountBreakdown (encList encNetAmountBreakdown l) = some l :=
  decList_encList _ _ _ (fun a _ => rt_netAmountBreakdown a)

@[simp] theorem nulRtList_netAmountBreakdown (o : Option (List NetAmountBreakdown)) :
    decOptJson (decList decNetAmountBreakdown)
      (some (encNul (encList encNetAmountBreakdown) o)) = some o :=
  decOptJson_encNul _ _ rtList_netAmountBreakdown
    (fun a => encList_ne_null encNetAmountBreakdown a) o

@[simp] theorem rt_sellerPayableBreakdown (s : SellerPayableBreakdown) :
    decSellerPayableBreakdown (encSellerPayableBreakdown s) = some s := by
  cases s
  simp [decSellerPayableBreakdown, encSellerPayableBreakdown, getReq, getOpt,
    lookup_jf_other, lookup_jnul_other]

@[simp] theorem nulRt_payer (o : Option Payer) :
    decOptJson decPayer (some (encNul encPayer o)) = some o :=
  decOptJson_encNul _ _ rt_payer (fun a => by simp [encPayer]) o

@[simp] theorem rt_refund (r : Refund) : decRefund (encRefund r) = some r := by
  obtain ⟨st, sd, i, inv, cu, arn, ntp, spb, ls, am, py, ct, ut⟩ := r
  simp [decRefund, encRefund, getReq, getOpt, lookup_jf_other, lookup_jnul_other, decStr]

@[simp] theorem rtList_refund (l : List Refund) :
    decList decRefund (encList encRefund l) = some l :=
  decList_encList _ _ _ (fun a _ => rt_refund a)

theorem rt_paymentCollection (p : PaymentCollection) (h : p.opaqueOk = true) :
    decPaymentCollection (encPaymentCollection p) = some p := by
  obtain ⟨au, ca, re⟩ := p
  simp [PaymentCollection.opaqueOk, Bool.and_eq_true] at h
  obtain ⟨h₁, h₂⟩ := h
  have hau : decList decAuthorizationWithData (encList encAuthorizationWithData au)
      = some au :=
    decList_encList _ _ _ (fun a ha => rt_authorizationWithData a (h₁ a ha))
  have hca : decList decCapture (encList encCapture ca) = some ca :=
    decList_encList _ _ _ (fun a ha => rt_capture a (h₂ a ha))
  simp [decPaymentCollection, encPaymentCollection, getDef, lookup_jf_other, hau, hca]

theorem optRt_paymentCollection (o : Option PaymentCollection)
    (h : (match o with | none => true | some pc => pc.opaqueOk) = true) :
    decOptJson decPaymentCollection (o.map encPaymentCollection) = some o := by
  cases o with
  | none => rfl
  | some pc =>
      rw [Option.map_some',
        decOptJson_some_of_ne_null decPaymentCollection _ (by simp [encPaymentCollection]),
        rt_paymentCollection pc h, Option.map_some']

theorem rt_paymentSourceResponse (p : PaymentSourceResponse) (h : p.opaqueOk = true) :
    decPaymentSourceResponse (encPaymentSourceResponse p) = some p := by
  obtain ⟨c, ba, bl, ep, gi, idl, my, p24f, so, tr, ve, pp, ap, gp⟩ := p
  simp [PaymentSourceResponse.opaqueOk, Bool.and_eq_true, and_assoc] at h
  obtain ⟨h₁, h₂, h₃, h₄, h₅, h₆, h₇, h₈, h₉, h₁₀, h₁₁, h₁₂, h₁₃, h₁₄⟩ := h
  simp [decPaymentSourceResponse, encPaymentSourceResponse, getOpt, lookup_jopt_other,
    decOptJson_value c h₁, decOptJson_value ba h₂, decOptJson_value bl h₃,
    decOptJson_value ep h₄, decOptJson_value gi h₅, decOptJson_value idl h₆,
    decOptJson_value my h₇, decOptJson_value p24f h₈, decOptJson_value so h₉,
    decOptJson_value tr h₁₀, decOptJson_value ve h₁₁, decOptJson_value pp h₁₂,
    decOptJson_value ap h₁₃, decOptJson_value gp h₁₄]

theorem optRt_paymentSourceResponse (o : Option PaymentSourceResponse)
    (h : (match o with | none => true | some ps => ps.opaqueOk) = true) :
    decOptJson decPaymentSourceResponse (o.map encPaymentSourceResponse) = some o := by
  cases o with
  | none => rfl
  | some ps =>
      rw [Option.map_some',
        decOptJson_some_of_ne_null decPaymentSourceResponse _
          (by simp [encPaymentSourceResponse]),
        rt_paymentSourceResponse ps h, Option.map_some']

theorem rt_purchaseUnit (u : PurchaseUnit) (h : u.opaqueOk = true) :
    decPurchaseUnit (encPurchaseUnit u) = some u := by
  obtain ⟨rid, de, cu, inv, i, sd, its, am, pe, pi, sh, pa⟩ := u
  simp only [PurchaseUnit.opaqueOk] at h
  simp [decPurchaseUnit, encPurchaseUnit, getReq, getOpt, lookup_jf_other,
    lookup_jopt_other, optRt_paymentCollection pa h]

theorem rtList_purchaseUnit (l : List PurchaseUnit)
    (h : l.all PurchaseUnit.opaqueOk = true) :
    decList decPurchaseUnit (encList encPurchaseUnit l) = some l :=
  decList_encList _ _ _ (fun a ha => rt_purchaseUnit a (List.all_eq_true.mp h a ha))

theorem optRtList_purchaseUnit (o : Option (List PurchaseUnit))
    (h : (match o with | none => true | some l => l.all PurchaseUnit.opaqueOk) = true) :
    decOptJson (decList decPurchaseUnit) (o.map (encList encPurchaseUnit)) = some o := by
  cases o with
  | none => rfl
  | some l =>
      rw [Option.map_some',
        decOptJson_some_of_ne_null (decList decPurchaseUnit) _
          (encList_ne_null encPurchaseUnit l),
        rtList_purchaseUnit l h, Option.map_some']

theorem rt_order (o : Orders.Order) (h : o.opaqueOk = true) :
    decOrder (encOrder o) = some o := by
  obtain ⟨ct, ut, i, pu, ls, ps, it, py, st⟩ := o
  simp only [Order.opaqueOk, Bool.and_eq_true] at h
  obtain ⟨h₁, h₂⟩ := h
  simp [decOrder, encOrder, getReq, getOpt, lookup_jf_other, lookup_jopt_other, decStr,
    optRtList_purchaseUnit pu h₁, optRt_paymentSourceResponse ps h₂]

end Rt

namespace Rt

open JsonLemmas Tracking

@[simp] theorem rt_trShipmentItem (i : Tracking.ShipmentItem) :
    Tracking.decShipmentItem (Tracking.encShipmentItem i) = some i := by
  cases i
  simp [Tracking.decShipmentItem, Tracking.encShipmentItem, getOpt, lookup_jopt_other]

@[simp] theorem rtList_trShipmentItem (l : List Tracking.ShipmentItem) :
    decList Tracking.decShipmentItem (encList Tracking.encShipmentItem l) = some l :=
  decList_encList _ _ _ (fun a _ => rt_trShipmentItem a)

@[simp] theorem optRtList_trShipmentItem (o : Option (List Tracking.ShipmentItem)) :
    decOptJson (decList Tracking.decShipmentItem)
      (o.map (encList Tracking.encShipmentItem)) = some o :=
  decOptJson_map _ _ rtList_trShipmentItem
    (fun a => encList_ne_null Tracking.encShipmentItem a) o

@[simp] theorem rt_orderTracking (t : OrderTracking) :
    decOrderTracking (encOrderTracking t) = some t := by
  cases t
  simp [decOrderTracking, encOrderTracking, getReq, getOpt, lookup_jf_other,
    lookup_jopt_other, decStr]

end Rt

namespace Rt

open JsonLemmas Invoice

@[simp] theorem rt_invStatus (s : Status) : decStatus (encStatus s) = some s := by
  cases s <;> simp [decStatus, encStatus, Status.token]

@[simp] theorem rt_invTax (t : Tax) : decTax (encTax t) = some t := by
  cases t
  simp [decTax, encTax, getReq, getOpt, lookup_jf_other, lookup_jopt_other, decStr]

@[simp] theorem nulRt_invTax (o : Option Tax) :
    decOptJson decTax (some (encNul encTax o)) = some o :=
  decOptJson_encNul _ _ rt_invTax (fun a => by simp [encTax]) o

@[simp] theorem rt_invShippingCost (s : ShippingCost) :
    decShippingCost (encShippingCost s) = some s := by
  cases s
  simp [decShippingCost, encShippingCost, getOpt, lookup_jnul_other]

@[simp] theorem rt_invCustomAmount (c : CustomAmount) :
    decCustomAmount (encCustomAmount c) = some c := by
  cases c
  simp [decCustomAmount, encCustomAmount, getReq, getOpt, lookup_jf_other,
    lookup_jopt_other, decStr]

end Rt

namespace Rt

open JsonLemmas Invoice

@[simp] theorem optRt_invShippingCost (o : Option ShippingCost) :
    decOptJson decShippingCost (o.map encShippingCost) = some o :=
  decOptJson_map _ _ rt_invShippingCost (fun a => by simp [encShippingCost]) o

@[simp] theorem optRt_invCustomAmount (o : Option CustomAmount) :
    decOptJson decCustomAmount (o.map encCustomAmount) = some o :=
  decOptJson_map _ _ rt_invCustomAmount (fun a => by simp [encCustomAmount]) o

@[simp] theorem sizeFields_append (l₁ l₂ : List (String × Json)) :
    Json.sizeFields (l₁ ++ l₂) = Json.sizeFields l₁ + Json.sizeFields l₂ := by
  induction l₁ with
  | nil => simp [Json.sizeFields]
  | cons hd tl ih =>
      obtain ⟨k, v⟩ := hd
      simp [Json.sizeFields, ih]
      omega

theorem json_size_pos (j : Json) : 0 < j.size := by
  cases j <;> simp [Json.size]

/-- Fuel-indexed round trip for the mutually recursive invoice money family:
with fuel at least the size of the encoded document, each decoder inverts
its encoder. -/
theorem rt_inv_family (n : Nat) :
    (∀ a : Invoice.Amount,
      (encAmount a).size ≤ n → decAmountF n (encAmount a) = some a) ∧
    (∀ b : Invoice.Breakdown,
      (encBreakdown b).size ≤ n → decBreakdownF n (encBreakdown b) = some b) ∧
    (∀ d : AggregatedDiscount,
      (encAggregatedDiscount d).size ≤ n →
        decAggregatedDiscountF n (encAggregatedDiscount d) = some d) ∧
    (∀ x : Discount,
      (encDiscount x).size ≤ n → decDiscountF n (encDiscount x) = some x) := by
  induction n using Nat.strong_induction_on with
  | _ n IH =>
    rcases n with _ | m
    · exact ⟨fun x h => by have := json_size_pos (encAmount x); omega,
        fun x h => by have := json_size_pos (encBreakdown x); omega,
        fun x h => by have := json_size_pos (encAggregatedDiscount x); omega,
        fun x h => by have := json_size_pos (encDiscount x); omega⟩
    obtain ⟨IHa, IHb, IHd, IHx⟩ := IH m (Nat.lt_succ_self m)
    refine ⟨?_, ?_, ?_, ?_⟩
    · intro a hsize
      obtain ⟨cc, v, bd⟩ := a
      cases bd with
      | none =>
          simp [encAmount, decAmountF, getReq, lookup_jf_other, decStr]
      | some b =>
          obtain ⟨it₂, d₂, tt₂, sh₂, cu₂⟩ := b
          have hb : (encBreakdown (.mk it₂ d₂ tt₂ sh₂ cu₂)).size ≤ m := by
            simp [encAmount, encCurrency, Json.size, Json.sizeFields, jf,
              sizeFields_append] at hsize ⊢
            omega
          have hunf : encBreakdown (.mk it₂ d₂ tt₂ sh₂ cu₂)
              = Json.obj (jopt "item_total" encMoney it₂
                ++ (jopt "discount" encAggregatedDiscount d₂
                  ++ (jopt "tax_total" encMoney tt₂
                    ++ (jopt "shipping" encShippingCost sh₂
                      ++ jopt "custom" encCustomAmount cu₂)))) := by
            cases d₂ <;> simp [encBreakdown, jopt, jf]
          have hrec : decBreakdownF m (Json.obj (jopt "item_total" encMoney it₂
              ++ (jopt "discount" encAggregatedDiscount d₂
                ++ (jopt "tax_total" encMoney tt₂
                  ++ (jopt "shipping" encShippingCost sh₂
                    ++ jopt "custom" encCustomAmount cu₂)))))
              = some (.mk it₂ d₂ tt₂ sh₂ cu₂) := by
            rw [← hunf]
            exact IHb _ hb
          simp [encAmount, decAmountF, getReq, lookup_jf_other, decStr, hunf, hrec]
    · intro b hsize
      obtain ⟨it, d, tt, sh, cu⟩ := b
      cases d with
      | none =>
          simp [encBreakdown, decBreakdownF, decBreakdownRest, getOpt,
            lookup_jopt_other, lookup_jf_other]
      | some ad =>
          obtain ⟨inv₂, it₂⟩ := ad
          have hd : (encAggregatedDiscount (.mk inv₂ it₂)).size ≤ m := by
            simp [encBreakdown, Json.size, Json.sizeFields, jf,
              sizeFields_append] at hsize ⊢
            omega
          have hunf : encAggregatedDiscount (.mk inv₂ it₂)
              = Json.obj (jopt "invoice_discount" encDiscount inv₂
                ++ jopt "item_discount" encMoney it₂) := by
            cases inv₂ <;> simp [encAggregatedDiscount, jopt, jf]
          have hrec : decAggregatedDiscountF m
              (Json.obj (jopt "invoice_discount" encDiscount inv₂
                ++ jopt "item_discount" encMoney it₂))
              = some (.mk inv₂ it₂) := by
            rw [← hunf]
            exact IHd _ hd
          simp [encBreakdown, decBreakdownF, decBreakdownRest,
            getOpt, lookup_jopt_other, lookup_jf_other, hunf, hrec]
    · intro d hsize
      obtain ⟨inv, it⟩ := d
      cases inv with
      | none =>
          simp [encAggregatedDiscount, decAggregatedDiscountF, getOpt,
            lookup_jopt_other, lookup_jf_other]
      | some dd =>
          obtain ⟨p₂, a₂⟩ := dd
          have hx : (encDiscount (.mk p₂ a₂)).size ≤ m := by
            simp [encAggregatedDiscount, Json.size, Json.sizeFields, jf,
              sizeFields_append] at hsize ⊢
            omega
          have hunf : encDiscount (.mk p₂ a₂)
              = Json.obj (jnul "percent" Json.str p₂
                ++ jnul "amount" encAmount a₂) := by
            cases a₂ <;> simp [encDiscount, jnul, encNul, jf]
          have hrec : decDiscountF m
              (Json.obj (jnul "percent" Json.str p₂
                ++ jnul "amount" encAmount a₂))
              = some (.mk p₂ a₂) := by
            rw [← hunf]
            exact IHx _ hx
          simp [encAggregatedDiscount, decAggregatedDiscountF, getOpt,
            lookup_jopt_other, lookup_jf_other, hunf, hrec]
    · intro x hsize
      obtain ⟨p, a⟩ := x
      cases a with
      | none =>
          simp [encDiscount, decDiscountF, getOpt, lookup_jnul_other, lookup_jf_other]
      | some am =>
          obtain ⟨cc₂, v₂, bd₂⟩ := am
          cases bd₂ with
          | none =>
              have ha : (encAmount (.mk cc₂ v₂ none)).size ≤ m := by
                simp [encDiscount, encAmount, encCurrency, Json.size, Json.sizeFields,
                  jf, jnul, sizeFields_append] at hsize ⊢
                omega
              have hunf : encAmount (.mk cc₂ v₂ none)
                  = Json.obj (jf "currency_code" (encCurrency cc₂)
                    ++ jf "value" (Json.str v₂)) := by
                simp [encAmount]
              have hrec : decAmountF m (Json.obj (jf "currency_code" (encCurrency cc₂)
                  ++ jf "value" (Json.str v₂))) = some (.mk cc₂ v₂ none) := by
                rw [← hunf]
                exact IHa _ ha
              simp [encDiscount, decDiscountF, getOpt, lookup_jnul_other,
                lookup_jf_other, hunf, hrec]
          | some b₂ =>
              have ha : (encAmount (.mk cc₂ v₂ (some b₂))).size ≤ m := by
                simp [encDiscount, encAmount, encCurrency, Json.size, Json.sizeFields,
                  jf, jnul, sizeFields_append] at hsize ⊢
                omega
              have hunf : encAmount (.mk cc₂ v₂ (some b₂))
                  = Json.obj (jf "currency_code" (encCurrency cc₂)
                    ++ (jf "value" (Json.str v₂)
                      ++ jf "breakdown" (encBreakdown b₂))) := by
                simp [encAmount]
              have hrec : decAmountF m (Json.obj (jf "currency_code" (encCurrency cc₂)
                  ++ (jf "value" (Json.str v₂) ++ jf "breakdown" (encBreakdown b₂))))
                  = some (.mk cc₂ v₂ (some b₂)) := by
                rw [← hunf]
                exact IHa _ ha
              simp [encDiscount, decDiscountF, getOpt, lookup_jnul_other,
                lookup_jf_other, hunf, hrec]

/-- Round trip of the invoice Amount through its public decoder. -/
theorem rt_invAmount (a : Invoice.Amount) : decAmount (encAmount a) = some a := by
  unfold Invoice.decAmount
  exact (rt_inv_family (encAmount a).size).1 a (Nat.le_refl _)

end Rt

namespace JsonLemmas

theorem lookup_snoc_ne (fs : List (String × Json)) (k extra : String) (v : Json)
    (h : extra ≠ k) :
    Json.lookup k (fs ++ [(extra, v)]) = Json.lookup k fs := by
  rw [lookup_append]
  cases hf : Json.lookup k fs with
  | some w => rfl
  | none => simp [Json.lookup, h]

theorem getReq_snoc (fs : List (String × Json)) (k extra : String) (v : Json)
    (dec : Json → Option α) (h : extra ≠ k) :
    getReq (fs ++ [(extra, v)]) k dec = getReq fs k dec := by
  simp [getReq, lookup_snoc_ne fs k extra v h]

theorem getOpt_snoc (fs : List (String × Json)) (k extra : String) (v : Json)
    (dec : Json → Option α) (h : extra ≠ k) :
    getOpt (fs ++ [(extra, v)]) k dec = getOpt fs k dec := by
  simp [getOpt, lookup_snoc_ne fs k extra v h]

end JsonLemmas

/-- C1 (amended): decoding an encoded entity returns the original value, with
optional fields that were absent still absent after the round trip; the
skip_serializing_none types (OrderTracking, Order and their components) omit
absent optionals on encode, while PhoneNumber emits them as explicit nulls
that still decode back to absent, and the Order round trip additionally
requires the intentionally opaque payment-source and processor JSON blobs
not to be the literal null. -/
theorem C1_roundtrip :
    (∀ t : Tracking.OrderTracking,
        Tracking.decOrderTracking (Tracking.encOrderTracking t) = some t)
    ∧ (∀ p : Orders.PhoneNumber,
        Orders.decPhoneNumber (Orders.encPhoneNumber p) = some p)
    ∧ (∀ o : Orders.Order, o.opaqueOk = true →
        Orders.decOrder (Orders.encOrder o) = some o) :=
  ⟨Rt.rt_orderTracking, Rt.rt_phoneNumber, Rt.rt_order⟩

/-- C1 witness: a concrete order round trips. -/
theorem C1_witness :
    Examples.goodOrder.opaqueOk = true
    ∧ Orders.decOrder (Orders.encOrder Examples.goodOrder) = some Examples.goodOrder :=
  ⟨rfl, C1_roundtrip.2.2 Examples.goodOrder rfl⟩

/-- C1 counterexample: a payment source whose opaque card blob is the
literal null does not survive the round trip, and a phone number with an
absent country code is encoded with an explicit null rather than omitting
the key, so the claim as stated fails. -/
theorem C1_counterexample :
    Orders.decPaymentSourceResponse
        (Orders.encPaymentSourceResponse Examples.nullCardSource)
      ≠ some Examples.nullCardSource
    ∧ Json.lookup "country_code"
        (Json.fields (Orders.encPhoneNumber Examples.phoneNoCc)) = some Json.null := by
  constructor
  · intro h
    have heval : Orders.decPaymentSourceResponse
        (Orders.encPaymentSourceResponse Examples.nullCardSource)
        = some ⟨none, none, none, none, none, none, none, none, none, none, none, none,
            none, none⟩ := rfl
    rw [heval] at h
    have h₂ := Option.some.inj h
    have h₃ := congrArg Orders.PaymentSourceResponse.card h₂
    simp [Examples.nullCardSource] at h₃
  · rfl

/-- C2 (amended): for the types annotated with skip_serializing_none, an
unset optional field is omitted from the serialized output entirely, but
PhoneNumber (country_code) and Refund (status_details, invoice_id,
note_to_payer), whose derives lack the attribute, emit the key with an
explicit null. -/
theorem C2_null_emission :
    (∀ p : Orders.PhoneNumber, p.country_code = none →
        Json.lookup "country_code" (Json.fields (Orders.encPhoneNumber p))
          = some Json.null)
    ∧ (∀ r : Orders.Refund, r.status_details = none →
        Json.lookup "status_details" (Json.fields (Orders.encRefund r))
          = some Json.null)
    ∧ (∀ r : Orders.Refund, r.invoice_id = none →
        Json.lookup "invoice_id" (Json.fields (Orders.encRefund r)) = some Json.null)
    ∧ (∀ r : Orders.Refund, r.note_to_payer = none →
        Json.lookup "note_to_payer" (Json.fields (Orders.encRefund r)) = some Json.null)
    ∧ (∀ t : Tracking.OrderTracking, t.carrier_name_other = none →
        Json.lookup "carrier_name_other" (Json.fields (Tracking.encOrderTracking t))
          = none)
    ∧ (∀ a : Orders.Amount, a.breakdown = none →
        Json.lookup "breakdown" (Json.fields (Orders.encAmount a)) = none) := by
  refine ⟨?_, ?_, ?_, ?_, ?_, ?_⟩
  · intro p h
    obtain ⟨cc, nn⟩ := p
    cases h
    simp [Orders.encPhoneNumber, Json.fields, jnul, encNul, jf, Json.lookup]
  · intro r h
    obtain ⟨st, sd, i, inv, cu, arn, ntp, spb, ls, am, py, ct, ut⟩ := r
    cases h
    simp [Orders.encRefund, Json.fields, jnul, encNul, jf, Json.lookup,
      JsonLemmas.lookup_append, JsonLemmas.lookup_jf_other,
      JsonLemmas.lookup_jnul_other]
  · intro r h
    obtain ⟨st, sd, i, inv, cu, arn, ntp, spb, ls, am, py, ct, ut⟩ := r
    cases h
    simp [Orders.encRefund, Json.fields, jnul, encNul, jf, Json.lookup,
      JsonLemmas.lookup_append, JsonLemmas.lookup_jf_other,
      JsonLemmas.lookup_jnul_other]
  · intro r h
    obtain ⟨st, sd, i, inv, cu, arn, ntp, spb, ls, am, py, ct, ut⟩ := r
    cases h
    simp [Orders.encRefund, Json.fields, jnul, encNul, jf, Json.lookup,
      JsonLemmas.lookup_append, JsonLemmas.lookup_jf_other,
      JsonLemmas.lookup_jnul_other]
  · intro t h
    obtain ⟨tn, cno, c, cid, np, its⟩ := t
    cases h
    simp [Tracking.encOrderTracking, Json.fields, JsonLemmas.lookup_append,
      JsonLemmas.lookup_jf_other, JsonLemmas.lookup_jopt_other,
      JsonLemmas.lookup_jopt_same]
  · intro a h
    obtain ⟨cc, v, bd⟩ := a
    cases h
    simp [Orders.encAmount, Json.fields, JsonLemmas.lookup_append,
      JsonLemmas.lookup_jf_other, JsonLemmas.lookup_jopt_same]

/-- C2 witness: concrete values exercising both the null-emitting and the
omitting encoders. -/
theorem C2_witness :
    Json.lookup "country_code" (Json.fields (Orders.encPhoneNumber Examples.phoneNoCc))
      = some Json.null
    ∧ Json.lookup "carrier_name_other"
        (Json.fields (Tracking.encOrderTracking Examples.trackingMinimal)) = none
    ∧ Json.lookup "breakdown" (Json.fields (Orders.encAmount Examples.bareAmount))
      = none :=
  ⟨C2_null_emission.1 Examples.phoneNoCc rfl,
   C2_null_emission.2.2.2.2.1 Examples.trackingMinimal rfl,
   C2_null_emission.2.2.2.2.2 Examples.bareAmount rfl⟩

/-- C2 counterexample: a refund with unset optional fields serializes those
keys with explicit null values, contradicting the claim that the key is
never emitted with a null. -/
theorem C2_counterexample :
    Json.lookup "status_details" (Json.fields (Orders.encRefund Examples.bareRefund))
      = some Json.null
    ∧ Json.lookup "note_to_payer" (Json.fields (Orders.encRefund Examples.bareRefund))
      = some Json.null :=
  ⟨rfl, rfl⟩

/-- C3: Intent serializes to the SCREAMING_SNAKE_CASE tokens CAPTURE and
AUTHORIZE and decoding accepts exactly those, but DisbursementMode, whose
derive lacks the rename_all attribute, serializes the plain variant names
Instant and Delayed and rejects the documented INSTANT and DELAYED tokens. -/
theorem C3_enum_tokens :
    Orders.encDisbursementMode .instant = Json.str "Instant"
    ∧ Orders.encDisbursementMode .delayed = Json.str "Delayed"
    ∧ Orders.decDisbursementMode (Json.str "INSTANT") = none
    ∧ Orders.decDisbursementMode (Json.str "DELAYED") = none
    ∧ Orders.encIntent .capture = Json.str "CAPTURE"
    ∧ Orders.encIntent .authorize = Json.str "AUTHORIZE"
    ∧ (∀ s : String,
        (Orders.decIntent (Json.str s)).isSome = true
          ↔ (s = "CAPTURE" ∨ s = "AUTHORIZE")) := by
  refine ⟨rfl, rfl, by decide, by decide, rfl, rfl, ?_⟩
  intro s
  simp only [Orders.decIntent]
  split_ifs with h₁ h₂ <;> simp_all

set_option maxHeartbeats 1000000 in
/-- C4: decoding the invoice status succeeds exactly on the twelve
documented SCREAMING_SNAKE_CASE tokens and fails on every other string. -/
theorem C4_invoice_status_tokens :
    ∀ s : String,
      (Invoice.decStatus (Json.str s)).isSome = true ↔ s ∈ Invoice.statusTokens := by
  intro s
  simp only [Invoice.decStatus, Invoice.statusTokens]
  split_ifs with h₁ h₂ h₃ h₄ h₅ h₆ h₇ h₈ h₉ h₁₀ h₁₁ h₁₂ <;>
    first
    | (subst_vars; simp; done)
    | (simp
       exact ⟨h₁, h₂, h₃, h₄, h₅, h₆, h₇, h₈, h₉, h₁₀, h₁₁, h₁₂⟩)

/-- C5 (amended): builders without a struct-level default attribute require
every field before finalizing, the optional DTO fields included: an Item
builder without name fails with a construction error naming name, and even
with name, quantity and unit_amount supplied it fails naming the first
unset optional field; a fully set Item builder succeeds. Builders carrying
the struct-level default attribute, such as PurchaseUnit, never fail:
finalizing silently falls back to type defaults, including for the required
amount field. -/
theorem C5_builders :
    Orders.ItemBuilder.build Orders.ItemBuilder.empty = .error "name"
    ∧ (∀ (n q : String) (ua : Money),
        Orders.ItemBuilder.build
          (((Orders.ItemBuilder.empty.setName n).setQuantity q).setUnitAmount ua)
          = .error "description")
    ∧ (∀ (n q d sk u : String) (c : Orders.ItemCategoryType) (iu : String)
        (ua tx : Money) (up : ItemUpc),
        Orders.ItemBuilder.build
          ⟨some n, some q, some (some d), some (some sk), some (some u),
            some (some c), some (some iu), some ua, some (some tx), some (some up)⟩
          = .ok ⟨n, q, some d, some sk, some u, some c, some iu, ua, some tx, some up⟩)
    ∧ (∀ b : Orders.PurchaseUnitBuilder, ∃ u, b.build = .ok u)
    ∧ Orders.PurchaseUnitBuilder.build .empty = .ok Orders.PurchaseUnit.defaultValue :=
  ⟨rfl, fun _ _ _ => rfl, fun _ _ _ _ _ _ _ _ _ _ => rfl, fun b => ⟨_, rfl⟩, rfl⟩

/-- C5 counterexample: finalizing the PurchaseUnit builder without the
required amount field succeeds with a silently defaulted amount instead of
failing with a construction error. -/
theorem C5_counterexample :
    Orders.PurchaseUnitBuilder.build Orders.PurchaseUnitBuilder.empty
      = .ok Orders.PurchaseUnit.defaultValue := rfl

/-- C6: the AddOrderTracking descriptor interpolates the order id into the
relative path, uses the POST method, and exposes exactly the stored
OrderTracking payload as its body. -/
theorem C6_addOrderTracking_descriptor :
    ∀ (s : String) (t : Tracking.OrderTracking),
      (Api.AddOrderTracking.new s t).relative_path
          = "/v2/checkout/orders/" ++ s ++ "/track"
      ∧ (Api.AddOrderTracking.new s t).method = Api.HttpMethod.post
      ∧ (Api.AddOrderTracking.new s t).body_value = some t
      ∧ (Api.AddOrderTracking.new "ORDER123" t).relative_path
          = "/v2/checkout/orders/ORDER123/track" := by
  intro s t
  refine ⟨rfl, rfl, rfl, ?_⟩
  show ("/v2/checkout/orders/" ++ "ORDER123" ++ "/track" : String)
    = "/v2/checkout/orders/ORDER123/track"
  decide

/-- C7: decoding tolerates an unrecognized extra field: appending an
unknown key to a document leaves the OrderTracking and Amount decoders
unchanged. -/
theorem C7_unknown_fields :
    (∀ (fs : List (String × Json)) (extra : String) (v : Json),
        extra ∉ Tracking.orderTrackingKeys →
        Tracking.decOrderTracking (Json.obj (fs ++ [(extra, v)]))
          = Tracking.decOrderTracking (Json.obj fs))
    ∧ (∀ (fs : List (String × Json)) (extra : String) (v : Json),
        extra ∉ Orders.amountKeys →
        Orders.decAmount (Json.obj (fs ++ [(extra, v)]))
          = Orders.decAmount (Json.obj fs)) := by
  constructor
  · intro fs extra v hmem
    simp only [Tracking.orderTrackingKeys, List.mem_cons, List.not_mem_nil, or_false,
      not_or] at hmem
    obtain ⟨h₁, h₂, h₃, h₄, h₅, h₆⟩ := hmem
    simp only [Tracking.decOrderTracking,
      JsonLemmas.getReq_snoc _ _ _ _ _ h₁, JsonLemmas.getOpt_snoc _ _ _ _ _ h₂,
      JsonLemmas.getReq_snoc _ _ _ _ _ h₃, JsonLemmas.getReq_snoc _ _ _ _ _ h₄,
      JsonLemmas.getOpt_snoc _ _ _ _ _ h₅, JsonLemmas.getOpt_snoc _ _ _ _ _ h₆]
  · intro fs extra v hmem
    simp only [Orders.amountKeys, List.mem_cons, List.not_mem_nil, or_false,
      not_or] at hmem
    obtain ⟨h₁, h₂, h₃⟩ := hmem
    simp only [Orders.decAmount,
      JsonLemmas.getReq_snoc _ _ _ _ _ h₁, JsonLemmas.getReq_snoc _ _ _ _ _ h₂,
      JsonLemmas.getOpt_snoc _ _ _ _ _ h₃]

/-- C7 witness: a concrete minimal document with an unknown extra field
decodes to the same (successful) result as without it. -/
theorem C7_witness :
    ("unexpected_field" ∉ Tracking.orderTrackingKeys)
    ∧ Tracking.decOrderTracking
        (Json.obj (Examples.trackingDocFields ++ [("unexpected_field", Json.str "x")]))
      = Tracking.decOrderTracking (Json.obj Examples.trackingDocFields)
    ∧ ("unexpected_field" ∉ Orders.amountKeys)
    ∧ Orders.decAmount
        (Json.obj (Examples.amountDocFields ++ [("unexpected_field", Json.str "x")]))
      = Orders.decAmount (Json.obj Examples.amountDocFields) :=
  ⟨by decide,
   C7_unknown_fields.1 Examples.trackingDocFields "unexpected_field" (Json.str "x")
     (by decide),
   by decide,
   C7_unknown_fields.2 Examples.amountDocFields "unexpected_field" (Json.str "x")
     (by decide)⟩

/-- C8: the monetary value is carried as a string: both Amount types and
Money round trip exactly, and the encoder stores the value field verbatim
as a JSON string, so no float coercion or normalization can occur. -/
theorem C8_money_fidelity :
    (∀ a : Orders.Amount,
        Orders.decAmount (Orders.encAmount a) = some a
        ∧ Json.lookup "value" (Json.fields (Orders.encAmount a))
            = some (Json.str a.value))
    ∧ (∀ a : Invoice.Amount,
        Invoice.decAmount (Invoice.encAmount a) = some a
        ∧ Json.lookup "value" (Json.fields (Invoice.encAmount a))
            = some (Json.str a.value))
    ∧ (∀ m : Money,
        decMoney (encMoney m) = some m
        ∧ Json.lookup "value" (Json.fields (encMoney m)) = some (Json.str m.value)) := by
  refine ⟨fun a => ⟨Rt.rt_amount a, ?_⟩, fun a => ⟨Rt.rt_invAmount a, ?_⟩,
    fun m => ⟨Rt.rt_money m, ?_⟩⟩
  · obtain ⟨cc, v, bd⟩ := a
    simp [Orders.encAmount, Orders.Amount.value, Json.fields, Json.lookup, jf, jopt,
      JsonLemmas.lookup_append, JsonLemmas.lookup_jf_other,
      JsonLemmas.lookup_jopt_other]
  · obtain ⟨cc, v, bd⟩ := a
    cases bd <;>
      simp [Invoice.encAmount, Invoice.Amount.value, Json.fields, Json.lookup, jf,
        JsonLemmas.lookup_append, JsonLemmas.lookup_jf_other]
  · obtain ⟨cc, v⟩ := m
    simp [encMoney, Json.fields, Json.lookup, jf, JsonLemmas.lookup_append,
      JsonLemmas.lookup_jf_other]

/-- C9: decoding an AuthorizationWithData fails whenever the status_details
key is absent, whatever else is present, and a document carrying only
status and status_details decodes successfully with every other field
absent. -/
theorem C9_auth_requires_status_details :
    (∀ fs : List (String × Json), Json.lookup "status_details" fs = none →
        Orders.decAuthorizationWithData (Json.obj fs) = none)
    ∧ Orders.decAuthorizationWithData Examples.authMinimalDoc
        = some ⟨.created, ⟨.pending⟩, none, none, none, none, none, none, none, none,
            none, none⟩ := by
  constructor
  · intro fs h
    have hsd : getReq fs "status_details" Orders.decAuthorizationStatusDetails
        = none := by
      simp [getReq, h]
    cases hst : getReq fs "status" Orders.decAuthorizationStatus <;>
      simp only [Orders.decAuthorizationWithData, hst, hsd] <;> rfl
  · simp [Orders.decAuthorizationWithData, Examples.authMinimalDoc, getReq, getOpt,
      Json.lookup, decOptJson, Orders.decAuthorizationStatus,
      Orders.decAuthorizationStatusDetails, Orders.decAuthorizationStatusDetailsReason,
      decStr]

/-- C9 witness: a document with status and several optional fields present
but status_details missing is rejected. -/
theorem C9_witness :
    Json.lookup "status_details" Examples.authNoDetailsFields = none
    ∧ Orders.decAuthorizationWithData (Json.obj Examples.authNoDetailsFields) = none :=
  ⟨rfl, C9_auth_requires_status_details.1 Examples.authNoDetailsFields rfl⟩

/-- C10: the three serde(default) collections of PaymentCollection decode
missing keys as empty lists; in particular the empty object decodes to the
collection with three empty lists. -/
theorem C10_payment_collection_defaults :
    Orders.decPaymentCollection (Json.obj []) = some ⟨[], [], []⟩
    ∧ (∀ (fs : List (String × Json)) (pc : Orders.PaymentCollection),
        Orders.decPaymentCollection (Json.obj fs) = some pc →
        Json.lookup "authorizations" fs = none → pc.authorizations = [])
    ∧ (∀ (fs : List (String × Json)) (pc : Orders.PaymentCollection),
        Orders.decPaymentCollection (Json.obj fs) = some pc →
        Json.lookup "captures" fs = none → pc.captures = [])
    ∧ (∀ (fs : List (String × Json)) (pc : Orders.PaymentCollection),
        Orders.decPaymentCollection (Json.obj fs) = some pc →
        Json.lookup "refunds" fs = none → pc.refunds = []) := by
  refine ⟨rfl, ?_, ?_, ?_⟩
  · intro fs pc h hl
    have hau : getDef fs "authorizations" (decList Orders.decAuthorizationWithData) []
        = some [] := by
      simp [getDef, hl]
    rcases hca : getDef fs "captures" (decList Orders.decCapture) [] with _ | ca
    · simp [Orders.decPaymentCollection, hau, hca] at h
    rcases hre : getDef fs "refunds" (decList Orders.decRefund) [] with _ | re
    · simp [Orders.decPaymentCollection, hau, hca, hre] at h
    simp only [Orders.decPaymentCollection, hau, hca, hre, Option.some_bind] at h
    injection h with h₂
    rw [← h₂]
  · intro fs pc h hl
    have hca : getDef fs "captures" (decList Orders.decCapture) [] = some [] := by
      simp [getDef, hl]
    rcases hau : getDef fs "authorizations" (decList Orders.decAuthorizationWithData) []
      with _ | au
    · simp [Orders.decPaymentCollection, hau] at h
    rcases hre : getDef fs "refunds" (decList Orders.decRefund) [] with _ | re
    · simp [Orders.decPaymentCollection, hau, hca, hre] at h
    simp only [Orders.decPaymentCollection, hau, hca, hre, Option.some_bind] at h
    injection h with h₂
    rw [← h₂]
  · intro fs pc h hl
    have hre : getDef fs "refunds" (decList Orders.decRefund) [] = some [] := by
      simp [getDef, hl]
    rcases hau : getDef fs "authorizations" (decList Orders.decAuthorizationWithData) []
      with _ | au
    · simp [Orders.decPaymentCollection, hau] at h
    rcases hca : getDef fs "captures" (decList Orders.decCapture) [] with _ | ca
    · simp [Orders.decPaymentCollection, hau, hca] at h
    simp only [Orders.decPaymentCollection, hau, hca, hre, Option.some_bind] at h
    injection h with h₂
    rw [← h₂]

/-- C10 witness: the first conjunct instantiated on the empty object. -/
theorem C10_witness :
    Json.lookup "authorizations" ([] : List (String × Json)) = none
    ∧ (Orders.PaymentCollection.mk [] [] []).authorizations = [] :=
  ⟨rfl,
   C10_payment_collection_defaults.2.1 [] (Orders.PaymentCollection.mk [] [] [])
     C10_payment_collection_defaults.1 rfl⟩
